import Mathlib

/-!
my-form: a shallow embedding of `src/script.js`.

The script renders an HTML form from a JSON description, reads the controls back on submit,
evaluates an optional expression over the collected values and shows the result.

The embedding keeps the script's functions (`el`, `coerce`, `renderField`, `collectValues`,
`tryComputeTotal`, `render`) as Lean functions.  DOM elements are records of what the script
did to them (class name, attributes, listeners, assigned properties, children).  What the
browser contributes and the script does not define is a parameter, `Browser`: string-to-number
conversion, the expression engine behind `new Function`, the currency formatter, `randomUUID`.
The configured expression is called on the collected-values object itself: what the call
leaves in that object is part of the engine's answer, and `JSON.stringify` may raise on it.
The page state kept here is what the script writes; the result area is reset by lines 124-125
after the expression has run.
`loadConfig` and the final `then`/`catch` of line 133 only fetch the configuration and hand it
to `render`; they are not part of the embedding.
-/

namespace MyForm

/-! ## JavaScript values -/

/-- A JavaScript Number, kept as the 64-bit pattern of its IEEE-754 double. No arithmetic is
done on it here; the script only passes numbers around, tests them and prints them. -/
structure JSNum where
  bits : Nat
deriving DecidableEq, Repr

/-- The number `0`. -/
def JSNum.zero : JSNum := ⟨0⟩
/-- The number `1`. -/
def JSNum.one : JSNum := ⟨0x3FF0000000000000⟩
/-- The number `2`. -/
def JSNum.two : JSNum := ⟨0x4000000000000000⟩
/-- The number `100`. -/
def JSNum.hundred : JSNum := ⟨0x4059000000000000⟩
/-- The number `NaN`. -/
def JSNum.nan : JSNum := ⟨0x7FF8000000000000⟩

/-- Biased exponent field of the double. -/
def JSNum.exponent (n : JSNum) : Nat := (n.bits / 2 ^ 52) % 2 ^ 11
/-- Fraction field of the double. -/
def JSNum.fraction (n : JSNum) : Nat := n.bits % 2 ^ 52
/-- Both `+0` and `-0`. -/
def JSNum.isZero (n : JSNum) : Bool := n.bits % 2 ^ 63 == 0
/-- Not-a-number. -/
def JSNum.isNaN (n : JSNum) : Bool := n.exponent == 2047 && n.fraction != 0
/-- Neither NaN nor an infinity. -/
def JSNum.isFinite (n : JSNum) : Bool := n.exponent != 2047

/-- The closures the script itself creates and stores in the DOM. -/
inductive Closure
  /-- The `oninput` closure of line 53: copies the slider's value into its readout `span`. -/
  | rangeReadout (inputId : String)
deriving DecidableEq, Repr

/-- JavaScript values as the script handles them. `obj` stands for any other value (an array,
an object), identified by an opaque reference. -/
inductive JSVal
  | undefined
  | null
  | bool (b : Bool)
  | num (n : JSNum)
  | str (s : String)
  | fn (c : Closure)
  | obj (ref : Nat)
deriving DecidableEq, Repr

/-- An exception value, by the name of its class. -/
structure JSErr where
  name : String
deriving DecidableEq, Repr

/-- ToBoolean. -/
def JSVal.truthy : JSVal → Bool
  | .undefined => false
  | .null => false
  | .bool b => b
  | .num n => !n.isZero && !n.isNaN
  | .str s => s != ""
  | .fn _ => true
  | .obj _ => true

/-- The operator `a || b`. -/
def JSVal.or (a b : JSVal) : JSVal := if a.truthy then a else b

/-- The operator `a ?? b`. -/
def JSVal.nullish (a b : JSVal) : JSVal :=
  match a with
  | .undefined => b
  | .null => b
  | v => v

/-- An optional string property read from an object: `undefined` when it is absent. -/
def optStr : Option String → JSVal
  | none => .undefined
  | some s => .str s

/-- An optional number property read from an object: `undefined` when it is absent. -/
def optNum : Option JSNum → JSVal
  | none => .undefined
  | some n => .num n

/-- A string property used as a condition or on the left of `||`: the string when it is
present and non-empty (truthy), nothing otherwise. -/
def truthyStr : Option String → Option String
  | some s => if s = "" then none else some s
  | none => none

/-- `s.startsWith(p)`. -/
def startsWith (s p : String) : Bool := p.data.isPrefixOf s.data

/-- `s.slice(n)` for `n` no larger than the length. -/
def slice (s : String) (n : Nat) : String := String.mk (s.data.drop n)

/-- Lower-casing of one character, as far as the script can observe it: the only characters
that `toLowerCase` maps to an ASCII letter are `A`..`Z` and the Kelvin sign (U+212A). -/
def lowerChar (c : Char) : Char :=
  if c = Char.ofNat 0x212A then 'k' else c.toLower

/-- `s.toLowerCase()`, exact on every string whose result the script compares with its ASCII
`case` labels. -/
def toLowerCase (s : String) : String := String.mk (s.data.map lowerChar)

/-! ## DOM nodes -/

/-- A DOM node as the record of how the script built it. An attribute keeps the value that
was handed to `setAttribute` (the DOM stores its string form). -/
inductive Node
  | text (data : String)
  | elem (tag : String) (className : Option JSVal) (attrs : List (String × JSVal))
      (listeners : List (String × Closure)) (props : List (String × JSVal))
      (children : List Node)
deriving Repr

/-- An argument of `append`: a node, or a string that becomes a text node. -/
inductive Child
  | node (n : Node)
  | str (s : String)

/-- The conversion `c instanceof Node ? c : document.createTextNode(String(c))`. -/
def Child.toNode : Child → Node
  | .node n => n
  | .str s => .text s

/-- Replace the entry for `k`, or add it at the end. -/
def assocSet (l : List (String × JSVal)) (k : String) (v : JSVal) : List (String × JSVal) :=
  match l with
  | [] => [(k, v)]
  | (k', v') :: rest => if k' = k then (k, v) :: rest else (k', v') :: assocSet rest k v

/-- The call `document.createElement(tag)`. -/
def createElement (tag : String) : Node := .elem tag none [] [] [] []

/-- The assignment `node.className = v`. -/
def Node.setClassName : Node → JSVal → Node
  | .elem tag _ attrs ls props cs, v => .elem tag (some v) attrs ls props cs
  | n, _ => n

/-- The call `node.setAttribute(k, v)`. -/
def Node.setAttribute : Node → String → JSVal → Node
  | .elem tag cls attrs ls props cs, k, v => .elem tag cls (assocSet attrs k v) ls props cs
  | n, _, _ => n

/-- The call `node.addEventListener(ev, c)`. -/
def Node.addEventListener : Node → String → Closure → Node
  | .elem tag cls attrs ls props cs, ev, c => .elem tag cls attrs (ls ++ [(ev, c)]) props cs
  | n, _, _ => n

/-- An assignment to a property of the element, such as `input.value = v`. -/
def Node.setProp : Node → String → JSVal → Node
  | .elem tag cls attrs ls props cs, k, v => .elem tag cls attrs ls (assocSet props k v) cs
  | n, _, _ => n

/-- The call `node.append(c)`. -/
def Node.append : Node → Child → Node
  | .elem tag cls attrs ls props cs, c => .elem tag cls attrs ls props (cs ++ [c.toNode])
  | n, _ => n

/-- Tag of an element. -/
def Node.tag : Node → String
  | .elem tag _ _ _ _ _ => tag
  | .text _ => ""

/-- Class name of an element. -/
def Node.className : Node → Option JSVal
  | .elem _ cls _ _ _ _ => cls
  | .text _ => none

/-- Attributes set on an element. -/
def Node.attrs : Node → List (String × JSVal)
  | .elem _ _ attrs _ _ _ => attrs
  | .text _ => []

/-- Properties assigned on an element. -/
def Node.props : Node → List (String × JSVal)
  | .elem _ _ _ _ props _ => props
  | .text _ => []

/-- Children of an element. -/
def Node.children : Node → List Node
  | .elem _ _ _ _ _ cs => cs
  | .text _ => []

/-- The value of attribute `k`, when it was set. -/
def Node.getAttribute (n : Node) (k : String) : Option JSVal := n.attrs.lookup k

/-- The value assigned to property `k`, when one was. -/
def Node.getProp (n : Node) (k : String) : Option JSVal := n.props.lookup k

/-- One step of the `forEach` in `el` (lines 10-12). -/
def elAttr (node : Node) (kv : String × JSVal) : Node :=
  if kv.1 = "class" then node.setClassName kv.2
  else
    match startsWith kv.1 "on", kv.2 with
    | true, .fn c => node.addEventListener (slice kv.1 2) c
    | _, .undefined => node
    | _, .null => node
    | _, v => node.setAttribute kv.1 v

/-- The function `el(tag, attrs, ...children)` of lines 7-16. -/
def el (tag : String) (attrs : List (String × JSVal)) (children : List Child) : Node :=
  let node := createElement tag
  let node := attrs.foldl elAttr node
  children.foldl Node.append node

/-! ## Live controls -/

/-- The state of a control as the script reads it on submit: its `checked` and `value`
properties (`undefined` on an element that has no such property). -/
structure Control where
  checked : JSVal
  value : JSVal
deriving DecidableEq, Repr

/-- The form element as `collectValues` sees it: the answer of `form.querySelector(sel)`, the
first matching descendant or `null`, or the exception raised for a selector that does not
parse. -/
structure Form where
  querySelector : String → Except JSErr (Option Control)

/-! ## The browser -/

/-- A plain object as an ordered list of its own enumerable properties. -/
abbrev JSObject := List (String × JSVal)

/-- The result of calling a function on an object passed by reference: what the call returns
or raises, and the object afterwards. -/
structure CallResult where
  outcome : Except JSErr JSVal
  values : JSObject

/-- What the browser provides and the script does not define. -/
structure Browser where
  /-- StringToNumber of ECMAScript, the conversion behind `Number(s)`. -/
  stringToNumber : String → JSNum
  /-- Number to string conversion, for a finite number. -/
  numberToString : JSNum → String
  /-- ToNumber of a value that is not a primitive. -/
  objectToNumber : Nat → JSNum
  /-- Serialisation of a value that is not a primitive inside `JSON.stringify(_, null, 2)`, one
  level deep: its text, nothing when the property is left out, or the exception that
  `JSON.stringify` raises on it (a cycle, a BigInt). -/
  stringifyObject : Nat → Except JSErr (Option String)
  /-- The string returned by the `k`-th call of `crypto.randomUUID()` on this page. -/
  randomUUID : Nat → String
  /-- `new Function('values', body)(values)`: compile `body` and call it on the object
  `values`, which is passed by reference. The outcome is the value returned or the exception
  raised by compiling or by running; `values` is the object as the call leaves it, with
  whatever the expression assigned to it. -/
  runFunction : String → JSObject → CallResult
  /-- The call `new Intl.NumberFormat(undefined, opts).format(total)` for the options
  `style: 'currency'` and a well-formed currency code. -/
  formatCurrency : String → JSVal → Except JSErr String
  /-- The state a freshly built control has before the user touches it, for the controls whose
  state `initialControl` does not spell out. -/
  initialControl : Node → Control
  /-- The answer of `querySelector` on a freshly built form for a selector that
  `pristineForm` does not resolve itself. -/
  querySelectorOther : List Node → String → Except JSErr (Option Control)

/-- ToNumber, the conversion done by `Number(v)`. -/
def toNumber (B : Browser) : JSVal → JSNum
  | .undefined => JSNum.nan
  | .null => JSNum.zero
  | .bool b => if b then JSNum.one else JSNum.zero
  | .num n => n
  | .str s => B.stringToNumber s
  | .fn _ => JSNum.nan
  | .obj r => B.objectToNumber r

/-! ## The configuration -/

/-- A `select` option as it is written in the configuration: a plain string, or an object
with a `value` and possibly a `label`. -/
inductive OptItem
  | str (s : String)
  | pair (value : String) (label : Option String)
deriving DecidableEq, Repr

/-- The `options` of a field: an array of items, or an object from value to label, given by
its entries in the order `Object.entries` lists them. -/
inductive OptionList
  | array (items : List OptItem)
  | object (entries : List (String × String))
deriving DecidableEq, Repr

/-- The properties of a field other than its name. An absent property is `none`; `default`
may hold any value and is `undefined` when absent. -/
structure FieldAttrs where
  id : Option String := none
  label : Option String := none
  hint : Option String := none
  type : Option String := none
  required : Option Bool := none
  min : Option JSNum := none
  max : Option JSNum := none
  step : Option JSNum := none
  placeholder : Option String := none
  default : JSVal := .undefined
  options : Option OptionList := none
deriving DecidableEq, Repr

/-- A field as written in the configuration. -/
structure FieldSpec extends FieldAttrs where
  name : Option String := none
deriving DecidableEq, Repr

/-- A field after `render` has normalised it: the same properties, and a name. -/
structure Field extends FieldAttrs where
  name : String
deriving DecidableEq, Repr

/-- The configuration object returned by `loadConfig`. -/
structure FormConfig where
  title : Option String := none
  description : Option String := none
  fields : Option (List FieldSpec) := none
  totalExpression : Option String := none
  formula : Option String := none
  currency : Option String := none
  submitLabel : Option String := none
deriving DecidableEq, Repr

/-! ## `coerce` -/

/-- The function `coerce(val, type)` of lines 18-22. -/
def coerce (B : Browser) (val : JSVal) (type : Option String) : JSVal :=
  if type = some "number" ∨ type = some "range" then
    .num (toNumber B (val.or (.num JSNum.zero)))
  else if type = some "checkbox" then .bool val.truthy
  else val.nullish (.str "")

/-! ## `renderField` -/

/-- A task handed to `setTimeout`: the closure of line 54, which dispatches an `input` event
on the slider with the given id. -/
inductive Timer
  | dispatchInput (inputId : String)
deriving DecidableEq, Repr

/-- The array `opts` of lines 33-35. -/
def fieldOpts (f : Field) : List OptItem :=
  match f.options with
  | some (.array items) => items
  | some (.object entries) => entries.map fun e => OptItem.pair e.1 (some e.2)
  | none => []

/-- The `option` element built for one item of `opts` (lines 37-39). -/
def optionNode (o : OptItem) : Node :=
  match o with
  | .str s => el "option" [("value", .str s)] [.str s]
  | .pair value label => el "option" [("value", .str value)] [.str (label.getD value)]

/-- The value of `required` handed to `el`: `f.required ? true : null`. -/
def requiredAttr (f : Field) : JSVal :=
  if f.required = some true then .bool true else .null

/-- The `select` element of lines 32-41. -/
def selectInput (f : Field) : Node :=
  let id := f.name
  let input := el "select" [("id", .str id), ("name", .str id), ("required", requiredAttr f)] []
  let input := (fieldOpts f).foldl (fun inp o => inp.append (.node (optionNode o))) input
  if f.default ≠ .undefined then input.setProp "value" f.default else input

/-- The `input` element of lines 46-47, for the cases `number` and `text`. -/
def textInput (f : Field) : Node :=
  let id := f.name
  let input := el "input" [("id", .str id), ("name", .str id), ("type", optStr f.type),
    ("required", requiredAttr f), ("min", optNum f.min), ("max", optNum f.max),
    ("step", optNum f.step), ("placeholder", optStr f.placeholder)] []
  if f.default ≠ .undefined then input.setProp "value" f.default else input

/-- The slider of lines 52-53. -/
def rangeInput (f : Field) : Node :=
  let id := f.name
  el "input" [("id", .str id), ("name", .str id), ("type", .str "range"),
    ("min", (optNum f.min).nullish (.num JSNum.zero)),
    ("max", (optNum f.max).nullish (.num JSNum.hundred)),
    ("step", (optNum f.step).nullish (.num JSNum.one)),
    ("value", f.default.nullish ((optNum f.min).nullish (.num JSNum.zero))),
    ("oninput", .fn (.rangeReadout id))] []

/-- The checkbox of lines 58-59. -/
def checkboxInput (f : Field) : Node :=
  let id := f.name
  let input := el "input" [("id", .str id), ("name", .str id), ("type", .str "checkbox")] []
  if f.default.truthy then input.setProp "checked" (.bool true) else input

/-- The `input` element of the `default` case (line 63). -/
def fallbackInput (f : Field) : Node :=
  let id := f.name
  el "input" [("id", .str id), ("name", .str id), ("type", .str "text")] []

/-- The string the `switch` of line 30 dispatches on: `(f.type || 'text').toLowerCase()`. -/
def switchKey (f : Field) : String :=
  toLowerCase ((truthyStr f.type).getD "text")

/-- The function `renderField(f)` of lines 24-70: the row it returns, and the tasks it hands
to `setTimeout`. -/
def renderField (f : Field) : Node × List Timer :=
  let id := f.name
  let label := el "label" [("for", .str id)] [.str (f.label.getD f.name)]
  let hint : Option Node :=
    match truthyStr f.hint with
    | some h => some (el "div" [("class", .str "hint")] [.str h])
    | none => none
  let hintOrEmpty : Child :=
    match hint with
    | some h => .node h
    | none => .str ""
  let wrapped (input : Node) : Node × List Timer :=
    let wrap := el "div" [("class", .str "row")] [.node label, .node input]
    match hint with
    | some h => (wrap.append (.node h), [])
    | none => (wrap, [])
  let key := switchKey f
  if key = "select" then wrapped (selectInput f)
  else if key = "number" ∨ key = "text" then wrapped (textInput f)
  else if key = "range" then
    let out := el "span" [("id", .str (id ++ "_out"))] [.str ""]
    let input := rangeInput f
    (el "div" [("class", .str "row inline")]
      [.node (el "div" [] [.node label, hintOrEmpty]),
       .node (el "div" [] [.node input, .str " ", .node out])],
     [Timer.dispatchInput id])
  else if key = "checkbox" then
    let input := checkboxInput f
    (el "div" [("class", .str "row inline")]
      [.node (el "div" [] [.node label, hintOrEmpty]), .node input], [])
  else wrapped (fallbackInput f)

mutual
/-- Every element of a tree that carries a `name` attribute, in document order. -/
def Node.named : Node → List Node
  | .text _ => []
  | .elem tag cls attrs ls props cs =>
    (if (attrs.lookup "name").isSome then [Node.elem tag cls attrs ls props cs] else [])
      ++ namedList cs
/-- Every element of a forest that carries a `name` attribute, in document order. -/
def namedList : List Node → List Node
  | [] => []
  | n :: ns => n.named ++ namedList ns
end

/-! ## Objects and `JSON.stringify` -/

/-- The array index a property key denotes, when it is one: the canonical decimal form of an
integer below `2^32 - 1`. -/
def arrayIndex (k : String) : Option Nat :=
  let ds := k.data
  if ds ≠ [] ∧ ds.all Char.isDigit ∧ (ds.head? ≠ some '0' ∨ ds.length = 1) then
    let n := ds.foldl (fun a c => 10 * a + (c.toNat - 48)) 0
    if n < 2 ^ 32 - 1 then some n else none
  else none

/-- Replace the value of the own property `k`, keeping its place. -/
def replaceProperty (o : JSObject) (k : String) (v : JSVal) : JSObject :=
  o.map fun kv => if kv.1 = k then (k, v) else kv

/-- Insert a new array-index property in ascending index order, before the string keys. -/
def insertIndex : JSObject → Nat → String → JSVal → JSObject
  | [], _, k, v => [(k, v)]
  | (k', v') :: rest, i, k, v =>
    match arrayIndex k' with
    | some j => if j < i then (k', v') :: insertIndex rest i k v else (k, v) :: (k', v') :: rest
    | none => (k, v) :: (k', v') :: rest

/-- The assignment `o[k] = v` on an object created by `{}`: `__proto__` is the accessor of
`Object.prototype` and creates no own property; an own property keeps its place; a new one is
listed among the array indices in ascending order, or after all earlier string keys. -/
def setProperty (o : JSObject) (k : String) (v : JSVal) : JSObject :=
  if k = "__proto__" then o
  else if (o.lookup k).isSome then replaceProperty o k v
  else
    match arrayIndex k with
    | some i => insertIndex o i k v
    | none => o ++ [(k, v)]

/-- A hexadecimal digit, lower case. -/
def hexDigit (n : Nat) : Char :=
  if n < 10 then Char.ofNat (48 + n) else Char.ofNat (87 + n)

/-- The escape of one character in QuoteJSONString. -/
def jsonEscape (c : Char) : List Char :=
  let bs := Char.ofNat 92
  if c = Char.ofNat 34 then [bs, Char.ofNat 34]
  else if c = bs then [bs, bs]
  else if c = Char.ofNat 8 then [bs, 'b']
  else if c = Char.ofNat 12 then [bs, 'f']
  else if c = Char.ofNat 10 then [bs, 'n']
  else if c = Char.ofNat 13 then [bs, 'r']
  else if c = Char.ofNat 9 then [bs, 't']
  else if c.toNat < 32 then [bs, 'u', '0', '0', hexDigit (c.toNat / 16), hexDigit (c.toNat % 16)]
  else [c]

/-- QuoteJSONString. -/
def jsonQuote (s : String) : String :=
  String.mk ([Char.ofNat 34] ++ s.data.flatMap jsonEscape ++ [Char.ofNat 34])

/-- The serialisation of a property value: its text, nothing when the property is left out,
or the exception raised on it. -/
def jsonValue (B : Browser) : JSVal → Except JSErr (Option String)
  | .undefined => .ok none
  | .fn _ => .ok none
  | .null => .ok (some "null")
  | .bool b => .ok (some (if b then "true" else "false"))
  | .num n => .ok (some (if n.isFinite then B.numberToString n else "null"))
  | .str s => .ok (some (jsonQuote s))
  | .obj r => B.stringifyObject r

/-- The member lines of the pretty-printed object, in property order: two spaces, the quoted
key, a colon and a space, the value. The first property whose value raises ends the walk. -/
def jsonMembers (B : Browser) : JSObject → Except JSErr (List String)
  | [] => .ok []
  | kv :: rest =>
    match jsonValue B kv.2 with
    | .error e => .error e
    | .ok none => jsonMembers B rest
    | .ok (some s) =>
      match jsonMembers B rest with
      | .error e => .error e
      | .ok ms => .ok (("  " ++ jsonQuote kv.1 ++ ": " ++ s) :: ms)

/-- `JSON.stringify(o, null, 2)` for a plain object: the text, or the exception raised. -/
def jsonStringify (B : Browser) (o : JSObject) : Except JSErr String :=
  match jsonMembers B o with
  | .error e => .error e
  | .ok [] => .ok "\x7b\x7d"
  | .ok (m :: ms) => .ok ("\x7b\n" ++ ",\n".intercalate (m :: ms) ++ "\n\x7d")

/-! ## `collectValues` -/

/-- The selector of line 75, `[name="${f.name}"]`. -/
def nameSelector (name : String) : String :=
  "[name=" ++ String.singleton (Char.ofNat 34) ++ name ++ String.singleton (Char.ofNat 34) ++ "]"

/-- The value line 77 or 78 stores for a field whose control `elRef` was found. -/
def fieldValue (B : Browser) (elRef : Control) (f : Field) : JSVal :=
  if f.type = some "checkbox" then elRef.checked else coerce B elRef.value f.type

/-- The loop of lines 74-79, from the object `values` built so far. -/
def collectLoop (B : Browser) (form : Form) : List Field → JSObject → Except JSErr JSObject
  | [], values => .ok values
  | f :: fs, values =>
    match form.querySelector (nameSelector f.name) with
    | .error e => .error e
    | .ok none => collectLoop B form fs values
    | .ok (some elRef) => collectLoop B form fs (setProperty values f.name (fieldValue B elRef f))

/-- The function `collectValues(form, fields)` of lines 72-81. -/
def collectValues (B : Browser) (form : Form) (fields : List Field) : Except JSErr JSObject :=
  collectLoop B form fields []

/-! ## `tryComputeTotal` -/

/-- What the script does that is visible outside it, in the order it happens: the stages of
the submit handler, the bodies handed to `new Function`, the warnings written to the console. -/
inductive Event
  | collectValues
  | tryComputeTotal
  | present
  | newFunction (body : String)
  | consoleWarn (e : JSErr)
deriving DecidableEq, Repr

/-- The expression of line 86, `cfg.totalExpression || cfg.formula`, when line 87 lets it
through (it is truthy). -/
def selectedExpr (cfg : FormConfig) : Option String :=
  match truthyStr cfg.totalExpression with
  | some e => some e
  | none => truthyStr cfg.formula

/-- The function body of line 90. -/
def functionBody (expr : String) : String :=
  if startsWith expr "return" then expr else "return (" ++ expr ++ ");"

/-- `Number.isFinite(v)`. -/
def isFiniteNumber : JSVal → Bool
  | .num n => n.isFinite
  | _ => false

/-- The function `tryComputeTotal(cfg, values)` of lines 83-98: the value it returns, and the
events it causes. -/
def tryComputeTotal (B : Browser) (cfg : FormConfig) (values : JSObject) : JSVal × List Event :=
  match selectedExpr cfg with
  | none => (.null, [])
  | some expr =>
    match (B.runFunction (functionBody expr) values).outcome with
    | .ok result =>
      (if isFiniteNumber result then .num (toNumber B result) else result,
       [.newFunction (functionBody expr)])
    | .error e => (.null, [.newFunction (functionBody expr), .consoleWarn e])

/-- The object `values` after the call `tryComputeTotal(cfg, values)` of line 122: untouched
when no expression is configured, and otherwise as the call of line 91 leaves it. -/
def valuesAfterTotal (B : Browser) (cfg : FormConfig) (values : JSObject) : JSObject :=
  match selectedExpr cfg with
  | none => values
  | some expr => (B.runFunction (functionBody expr) values).values

/-! ## `render` and the submit listener -/

/-- A registered `submit` listener: the closure of lines 119-130 with the `cfg` and `fields`
it captured. -/
structure SubmitListener where
  cfg : FormConfig
  fields : List Field
deriving DecidableEq, Repr

/-- The parts of the page the script touches. -/
structure Page where
  /-- Text of `#title`. -/
  title : String := ""
  /-- Text of `#desc`. -/
  desc : String := ""
  /-- Children of `#form`. -/
  formChildren : List Node := []
  /-- The `hidden` property of `#form`. -/
  formHidden : Bool := true
  /-- The `submit` listeners of `#form`, in the order they were added. -/
  formListeners : List SubmitListener := []
  /-- Children of `#result`. -/
  resultChildren : List Node := []
  /-- The `hidden` property of `#result`. -/
  resultHidden : Bool := true
  /-- Tasks handed to `setTimeout` and not yet run. -/
  timers : List Timer := []
  /-- How often `crypto.randomUUID()` has been called. -/
  uuidCalls : Nat := 0
  /-- The events so far. -/
  trace : List Event := []

/-- The name of line 108, `f.name || f.id || crypto.randomUUID()`, when no call of
`randomUUID` is needed. -/
def givenName (f : FieldSpec) : Option String :=
  match truthyStr f.name with
  | some n => some n
  | none => truthyStr f.id

/-- The `map` of lines 106-109, with the count of `randomUUID` calls made before and after. -/
def normalizeFields (B : Browser) : List FieldSpec → Nat → List Field × Nat
  | [], k => ([], k)
  | f :: fs, k =>
    match givenName f with
    | some n =>
      let r := normalizeFields B fs k
      ({ f.toFieldAttrs with name := n } :: r.1, r.2)
    | none =>
      let r := normalizeFields B fs (k + 1)
      ({ f.toFieldAttrs with name := B.randomUUID k } :: r.1, r.2)

/-- The loop of line 111, from the children and timers so far. -/
def appendFields (fields : List Field) (init : List Node × List Timer) : List Node × List Timer :=
  fields.foldl (fun acc f => (acc.1 ++ [(renderField f).1], acc.2 ++ (renderField f).2)) init

/-- The function `render(cfg)` of lines 100-131. -/
def render (B : Browser) (cfg : FormConfig) (p : Page) : Page :=
  let fields := normalizeFields B (cfg.fields.getD []) p.uuidCalls
  let built := appendFields fields.1 ([], p.timers)
  let submit := el "button" [("type", .str "submit")]
    [.str ((truthyStr cfg.submitLabel).getD "Calculate")]
  { p with
    title := (truthyStr cfg.title).getD "Quote Form"
    desc := (truthyStr cfg.description).getD ""
    formChildren := built.1 ++ [submit]
    timers := built.2
    uuidCalls := fields.2
    formHidden := false
    formListeners := p.formListeners ++ [⟨cfg, fields.1⟩] }

/-- IsWellFormedCurrencyCode of ECMA-402: three ASCII letters. -/
def wellFormedCurrency (c : String) : Bool :=
  c.data.length == 3 && c.data.all Char.isAlpha

/-- The formatter call of line 127: constructing the `Intl.NumberFormat` raises a
`RangeError` for a currency code that is not well formed. -/
def formatTotal (B : Browser) (cfg : FormConfig) (total : JSVal) : Except JSErr String :=
  let currency := (truthyStr cfg.currency).getD "USD"
  if wellFormedCurrency currency then B.formatCurrency currency total
  else .error ⟨"RangeError"⟩

/-- The `submit` listener of lines 119-130, run on the live form: the page afterwards, and the
exception that ended the listener early, if any. Line 129 stringifies the object `values` as
line 122 left it. -/
def onSubmit (B : Browser) (l : SubmitListener) (form : Form) (p : Page) : Page × Option JSErr :=
  let p := { p with trace := p.trace ++ [Event.collectValues] }
  match collectValues B form l.fields with
  | .error e => (p, some e)
  | .ok collected =>
    let total := tryComputeTotal B l.cfg collected
    let values := valuesAfterTotal B l.cfg collected
    let p := { p with trace := p.trace ++ [Event.tryComputeTotal] ++ total.2 ++ [Event.present] }
    let p := { p with resultHidden := false, resultChildren := [] }
    if total.1 ≠ .null ∧ total.1 ≠ .undefined then
      match formatTotal B l.cfg total.1 with
      | .error e => (p, some e)
      | .ok s =>
        let line := el "div" [("class", .str "total")] [.str ("Total: " ++ s)]
        let p := { p with resultChildren := p.resultChildren ++ [line] }
        match jsonStringify B values with
        | .error e => (p, some e)
        | .ok text =>
          ({ p with resultChildren := p.resultChildren ++ [el "pre" [] [.str text]] }, none)
    else
      match jsonStringify B values with
      | .error e => (p, some e)
      | .ok text =>
        ({ p with resultChildren := p.resultChildren ++ [el "pre" [] [.str text]] }, none)

/-- One `submit` event on the form: every registered listener runs, in the order of
registration; an exception in one is reported by the browser and does not stop the others. -/
def dispatchSubmit (B : Browser) (form : Form) (p : Page) : Page :=
  p.formListeners.foldl (fun q l => (onSubmit B l form q).1) p

/-- The pages after a sequence of `render` calls. -/
def renderAll (B : Browser) (cfgs : List FormConfig) (p : Page) : Page :=
  cfgs.foldl (fun q cfg => render B cfg q) p

/-! ## The form before any interaction -/

/-- Names for which the selector of line 75 is an attribute selector for exactly that name. -/
def plainName (s : String) : Bool :=
  s.data.all fun c => c.isAlphanum || c == '-' || c == '_'

/-- The state of a freshly built control. A checkbox without a `value` attribute has the
value `on` and is checked when the script set `checked` or a `checked` attribute is there. -/
def initialControl (B : Browser) (n : Node) : Control :=
  if n.tag = "input" ∧ n.getAttribute "type" = some (.str "checkbox")
      ∧ n.getAttribute "value" = none ∧ n.getProp "value" = none then
    { checked := .bool
        (n.getProp "checked" == some (.bool true) || (n.getAttribute "checked").isSome)
      value := .str "on" }
  else B.initialControl n

/-- The name attribute of an element, when it is a string. -/
def Node.nameAttr (n : Node) : Option String :=
  match n.getAttribute "name" with
  | some (.str s) => some s
  | _ => none

/-- The live form right after `render`, before the user touches it: `querySelector` with the
selector of line 75 for a plain name gives the first element in document order with that
name. -/
def pristineForm (B : Browser) (children : List Node) : Form where
  querySelector sel :=
    match (namedList children).find? fun n =>
        match n.nameAttr with
        | some s => plainName s && sel == nameSelector s
        | none => false with
    | some n => .ok (some (initialControl B n))
    | none => B.querySelectorOther children sel

/-! ## A browser for concrete evaluations -/

/-- A browser for concrete evaluations. It answers as a real one (with the locale `en-US`)
does on the inputs those evaluations use: `Number("")` is `0`; the numbers 0, 1, 2 and 100
print as such; the bodies `return (1);`, `return 1;` and `return (2);` return `1`, `1` and
`2`; `return (values.x = 1);` sets the property `x` and returns `1`;
`return ((values.self = values, nosuch.x));` stores the object in itself (the reference 0
stands for the collected-values object) and raises a `ReferenceError`;
`returnRate * values.hours` raises a `ReferenceError`; the bodies `return ();` and
`return (1 +);` do not compile; `JSON.stringify` raises a `TypeError` on the cycle; one
dollar is formatted as `$1.00`. Its other answers are placeholders. -/
def sampleBrowser : Browser where
  stringToNumber s := if s = "" then JSNum.zero else JSNum.nan
  numberToString n :=
    if n.isZero then "0" else if n = JSNum.one then "1" else if n = JSNum.two then "2"
    else if n = JSNum.hundred then "100" else "NaN"
  objectToNumber _ := JSNum.nan
  stringifyObject r := if r = 0 then .error ⟨"TypeError"⟩ else .ok none
  randomUUID k :=
    if k = 0 then "3b241101-e2bb-4255-8caf-4136c566a962"
    else "9f0a4d5c-7c1e-4b6a-9a57-0d2f6c1e8b00"
  runFunction body values :=
    if body = "return (1);" then ⟨.ok (.num JSNum.one), values⟩
    else if body = "return 1;" then ⟨.ok (.num JSNum.one), values⟩
    else if body = "return (2);" then ⟨.ok (.num JSNum.two), values⟩
    else if body = "return (values.x = 1);" then
      ⟨.ok (.num JSNum.one), setProperty values "x" (.num JSNum.one)⟩
    else if body = "return ((values.self = values, nosuch.x));" then
      ⟨.error ⟨"ReferenceError"⟩, setProperty values "self" (.obj 0)⟩
    else if body = "returnRate * values.hours" then ⟨.error ⟨"ReferenceError"⟩, values⟩
    else ⟨.error ⟨"SyntaxError"⟩, values⟩
  formatCurrency c total :=
    if c = "USD" ∧ total = .num JSNum.one then .ok "$1.00" else .ok (c ++ " 1.00")
  initialControl _ := ⟨.undefined, .str ""⟩
  querySelectorOther _ _ := .ok none

/-- How many fields of a list get a generated name. -/
def generatedCount (specs : List FieldSpec) : Nat :=
  specs.countP fun f => (givenName f).isNone

/-! ## Forms for concrete evaluations -/

/-- The form that holds one text input named `__proto__` with the value `x` typed in. -/
def protoForm : Form where
  querySelector sel :=
    if sel = nameSelector "__proto__" then .ok (some ⟨.bool false, .str "x"⟩) else .ok none

/-- The form that holds one number input named `qty`, left empty. -/
def qtyForm : Form where
  querySelector sel :=
    if sel = nameSelector "qty" then .ok (some ⟨.bool false, .str ""⟩) else .ok none

/-- A configuration with two fields of the same name, a checkbox and a text input. -/
def sharedNameConfig : FormConfig :=
  { fields := some [{ name := some "a", type := some "checkbox" },
                    { name := some "a", type := some "text" }] }

/-- The form with no control at all. -/
def emptyForm : Form where
  querySelector _ := .ok none

/-! ## Reading the trace -/

/-- The function bodies handed to `new Function`, in order. -/
def compiledBodies (evs : List Event) : List String :=
  evs.filterMap fun e =>
    match e with
    | .newFunction body => some body
    | _ => none

/-- The dump element that line 129 appends: a `pre` holding the text that
`JSON.stringify(values, null, 2)` returned. -/
def dumpNode (text : String) : Node :=
  .elem "pre" none [] [] [] [.text text]

/-- The total line that line 127 appends for the formatted total `s`. -/
def totalNode (s : String) : Node :=
  .elem "div" (some (.str "total")) [] [] [] [.text ("Total: " ++ s)]

/-- The `option` element with the given value attribute and label text. -/
def optionElement (value label : String) : Node :=
  .elem "option" none [("value", .str value)] [] [] [.text label]

/-- A `select` field, its type written `Select`, with the options `["a","b"]`. -/
def sizeField : Field :=
  { name := "size", type := some "Select", options := some (.array [.str "a", .str "b"]) }

/-- A field of a type the `switch` does not list, with a placeholder, a default and the
required flag. -/
def emailField : Field :=
  { name := "email", type := some "email", placeholder := some "you@example.org",
    required := some true, default := .str "me@example.org" }

/-- A number field with a minimum, a placeholder and a default, and nothing else. -/
def hoursField : Field :=
  { name := "hours", type := some "number", min := some JSNum.zero, placeholder := some "0",
    default := .num JSNum.one }

/-- The attribute list after the last branch of line 12 has handled the pair `kv`: unchanged
for `undefined` and `null`, set otherwise. -/
def attrsAfter (a : List (String × JSVal)) (kv : String × JSVal) : List (String × JSVal) :=
  if kv.2 = .undefined ∨ kv.2 = .null then a else assocSet a kv.1 kv.2

/-- A configuration whose expression stores the collected-values object in itself and then
reads a property of a name that is not defined. -/
def cycleConfig : FormConfig :=
  { totalExpression := some "(values.self = values, nosuch.x)" }

/-- A configuration whose expression assigns to the collected-values object. -/
def assignConfig : FormConfig :=
  { totalExpression := some "values.x = 1" }

/-- The normalised field of a number input named `qty`. -/
def qtyField : Field :=
  { name := "qty", type := some "number" }

/-- A configuration whose expression is `1` and whose currency code has four letters. -/
def euroConfig : FormConfig :=
  { totalExpression := some "1", currency := some "EURO" }

/-- A configuration with one checkbox field, its type written `Checkbox`, without default. -/
def agreeConfig : FormConfig :=
  { fields := some [{ name := some "agree", type := some "Checkbox" }] }

/-- The same configuration with `default: true`. -/
def agreeCheckedConfig : FormConfig :=
  { fields := some [{ name := some "agree", type := some "Checkbox", default := .bool true }] }

/-- The same two configurations with the type written `checkbox`. -/
def agreeLowerConfig : FormConfig :=
  { fields := some [{ name := some "agree", type := some "checkbox" }] }

/-- See `agreeLowerConfig`. -/
def agreeLowerCheckedConfig : FormConfig :=
  { fields := some [{ name := some "agree", type := some "checkbox", default := .bool true }] }

/-- What `collectValues` returns for each registered listener on the form as `render` left
it, before any interaction. -/
def collectAfterRender (B : Browser) (cfg : FormConfig) : List (Except JSErr JSObject) :=
  (render B cfg {}).formListeners.map fun l =>
    collectValues B (pristineForm B (render B cfg {}).formChildren) l.fields

/-- The events of one run of the submit listener `l` on the live form. -/
def runTrace (B : Browser) (form : Form) (l : SubmitListener) : List Event :=
  match collectValues B form l.fields with
  | .error _ => [Event.collectValues]
  | .ok values =>
    [Event.collectValues, Event.tryComputeTotal] ++ (tryComputeTotal B l.cfg values).2
      ++ [Event.present]

/-- The submit button that line 113 builds. -/
def submitButton (cfg : FormConfig) : Node :=
  .elem "button" none [("type", .str "submit")] [] [] [.text ((truthyStr cfg.submitLabel).getD "Calculate")]

/-! ## Field names (lines 106-109) -/

theorem truthyStr_ne_empty {o : Option String} {s : String} (h : truthyStr o = some s) :
    s ≠ "" := by
  cases o with
  | none => simp [truthyStr] at h
  | some t =>
    by_cases ht : t = ""
    · simp [truthyStr, ht] at h
    · simp [truthyStr, ht] at h
      exact h ▸ ht

theorem givenName_ne_empty {f : FieldSpec} {n : String} (h : givenName f = some n) : n ≠ "" := by
  unfold givenName at h
  split at h
  · next e he => cases h; exact truthyStr_ne_empty he
  · exact truthyStr_ne_empty h

theorem normalizeFields_names_perm (B : Browser) (specs : List FieldSpec) (k : Nat) :
    ((normalizeFields B specs k).1.map Field.name).Perm
      (specs.filterMap givenName ++ (List.range' k (generatedCount specs)).map B.randomUUID) := by
  induction specs generalizing k with
  | nil => simp [normalizeFields, generatedCount]
  | cons f fs ih =>
    unfold normalizeFields
    cases hg : givenName f with
    | some n =>
      have hc : generatedCount (f :: fs) = generatedCount fs := by
        simp [generatedCount, List.countP_cons, hg]
      simp only [hc, List.map_cons, List.filterMap_cons, hg, List.cons_append]
      exact List.Perm.cons _ (ih k)
    | none =>
      have hc : generatedCount (f :: fs) = generatedCount fs + 1 := by
        simp [generatedCount, List.countP_cons, hg]
      simp only [hc, List.map_cons, List.filterMap_cons, hg, List.range'_succ]
      exact (List.Perm.cons _ (ih (k + 1))).trans List.perm_middle.symm

theorem normalizeFields_forall₂ (B : Browser) (specs : List FieldSpec) (k : Nat) :
    List.Forall₂ (fun s f => f.toFieldAttrs = s.toFieldAttrs ∧
        ∀ n, givenName s = some n → f.name = n) specs (normalizeFields B specs k).1 := by
  induction specs generalizing k with
  | nil => simp [normalizeFields]
  | cons f fs ih =>
    unfold normalizeFields
    cases hg : givenName f with
    | some n =>
      refine List.Forall₂.cons ⟨rfl, fun m hm => ?_⟩ (ih k)
      rw [hg] at hm
      exact Option.some.inj hm
    | none =>
      refine List.Forall₂.cons ⟨rfl, fun m hm => ?_⟩ (ih (k + 1))
      rw [hg] at hm
      exact absurd hm (by simp)

theorem render_formListeners (B : Browser) (cfg : FormConfig) (p : Page) :
    (render B cfg p).formListeners
      = p.formListeners ++ [⟨cfg, (normalizeFields B (cfg.fields.getD []) p.uuidCalls).1⟩] :=
  rfl

/-- C1 (counterexample): two fields declared with the same name both keep it, so the
normalised field list holds two fields named `a`. -/
theorem C1_same_name_twice :
    (normalizeFields sampleBrowser [{ name := some "a" }, { name := some "a" }] 0).1.map Field.name
      = ["a", "a"] ∧
    ¬ ((normalizeFields sampleBrowser [{ name := some "a" }, { name := some "a" }] 0).1.map
        Field.name).Nodup := by
  decide

/-- C1 (amended): when the generated identifiers are non-empty, every field of the normalised
list has a non-empty name; the names are pairwise distinct as soon as the names given in the
configuration (name, else id) and the identifiers generated are pairwise distinct; every
field keeps its other properties, a field with a non-empty name keeps that name, and a field
with a non-empty id and no (or an empty) name gets its id as name. -/
theorem C1_normalized_names (B : Browser) (specs : List FieldSpec) (k : Nat)
    (hgen : ∀ j, k ≤ j → j < k + generatedCount specs → B.randomUUID j ≠ "") :
    (∀ f ∈ (normalizeFields B specs k).1, f.name ≠ "") ∧
    ((specs.filterMap givenName
        ++ (List.range' k (generatedCount specs)).map B.randomUUID).Nodup →
      ((normalizeFields B specs k).1.map Field.name).Nodup) ∧
    List.Forall₂ (fun s f => f.toFieldAttrs = s.toFieldAttrs ∧
        (∀ n, s.name = some n → n ≠ "" → f.name = n) ∧
        (∀ d, s.name = none ∨ s.name = some "" → s.id = some d → d ≠ "" → f.name = d))
      specs (normalizeFields B specs k).1 := by
  refine ⟨?_, ?_, ?_⟩
  · intro f hf
    have hmem : f.name ∈ (normalizeFields B specs k).1.map Field.name :=
      List.mem_map.mpr ⟨f, hf, rfl⟩
    rw [(normalizeFields_names_perm B specs k).mem_iff, List.mem_append] at hmem
    rcases hmem with h | h
    · obtain ⟨s, _, hs⟩ := List.mem_filterMap.mp h
      exact givenName_ne_empty hs
    · obtain ⟨j, hj, hje⟩ := List.mem_map.mp h
      rw [List.mem_range'_1] at hj
      exact hje ▸ hgen j hj.1 hj.2
  · intro h
    exact (normalizeFields_names_perm B specs k).nodup_iff.mpr h
  · refine (normalizeFields_forall₂ B specs k).imp ?_
    rintro s f ⟨ha, hn⟩
    refine ⟨ha, ?_, ?_⟩
    · intro n hsn hne
      exact hn n (by simp [givenName, hsn, truthyStr, hne])
    · intro d hsn hsd hne
      refine hn d ?_
      rcases hsn with h | h <;> simp [givenName, h, hsd, truthyStr, hne]

/-- C1 (witness): a list with a named field, a field with only an id and a field with
neither. -/
theorem C1_normalized_names_witness :
    (∀ j, 0 ≤ j → j < 0 + generatedCount [{ name := some "a" }, { id := some "b" }, {}] →
      sampleBrowser.randomUUID j ≠ "") ∧
    ((normalizeFields sampleBrowser [{ name := some "a" }, { id := some "b" }, {}] 0).1.map
      Field.name).Nodup := by
  have h : ∀ j, 0 ≤ j → j < 0 + generatedCount [{ name := some "a" }, { id := some "b" }, {}] →
      sampleBrowser.randomUUID j ≠ "" := by
    intro j _ _
    simp only [sampleBrowser]
    split <;> decide
  exact ⟨h, (C1_normalized_names sampleBrowser _ 0 h).2.1 (by decide)⟩

/-! ## Stored values (lines 72-81) -/

theorem lookup_replaceProperty_self (o : JSObject) (k : String) (v : JSVal)
    (h : (o.lookup k).isSome) : (replaceProperty o k v).lookup k = some v := by
  induction o with
  | nil => simp at h
  | cons kv rest ih =>
    obtain ⟨k', v'⟩ := kv
    by_cases hk : k' = k
    · subst hk
      simp [replaceProperty, List.lookup_cons]
    · have hk2 : (k == k') = false := by simpa using fun e => hk e.symm
      simp only [List.lookup_cons, hk2] at h
      simp only [replaceProperty, List.map_cons, hk, if_false, List.lookup_cons, hk2]
      exact ih h

theorem lookup_replaceProperty_other (o : JSObject) (k k' : String) (v : JSVal)
    (h : k' ≠ k) : (replaceProperty o k v).lookup k' = o.lookup k' := by
  induction o with
  | nil => rfl
  | cons kv rest ih =>
    obtain ⟨k₀, v₀⟩ := kv
    by_cases hk : k₀ = k
    · subst hk
      have : (k' == k₀) = false := by simpa using h
      simp only [replaceProperty, List.map_cons, if_true, List.lookup_cons, this]
      exact ih
    · simp only [replaceProperty, List.map_cons, hk, if_false, List.lookup_cons]
      cases hkk : (k' == k₀)
      · exact ih
      · rfl

theorem lookup_insertIndex_self (o : JSObject) (i : Nat) (k : String) (v : JSVal)
    (h : o.lookup k = none) : (insertIndex o i k v).lookup k = some v := by
  induction o with
  | nil => simp [insertIndex, List.lookup_cons]
  | cons kv rest ih =>
    obtain ⟨k', v'⟩ := kv
    have hk : (k == k') = false := by
      cases hkk : (k == k')
      · rfl
      · simp [List.lookup_cons, hkk] at h
    simp only [List.lookup_cons, hk] at h
    unfold insertIndex
    split
    · split
      · simp only [List.lookup_cons, hk]; exact ih h
      · simp [List.lookup_cons]
    · simp [List.lookup_cons]

theorem lookup_insertIndex_other (o : JSObject) (i : Nat) (k k' : String) (v : JSVal)
    (h : k' ≠ k) : (insertIndex o i k v).lookup k' = o.lookup k' := by
  have hk : (k' == k) = false := by simpa using h
  induction o with
  | nil => simp [insertIndex, List.lookup_cons, hk]
  | cons kv rest ih =>
    obtain ⟨k₀, v₀⟩ := kv
    unfold insertIndex
    split
    · split
      · simp only [List.lookup_cons]
        cases (k' == k₀)
        · exact ih
        · rfl
      · simp only [List.lookup_cons, hk]
    · simp only [List.lookup_cons, hk]

theorem lookup_append_self (o : JSObject) (k : String) (v : JSVal)
    (h : o.lookup k = none) : (o ++ [(k, v)]).lookup k = some v := by
  induction o with
  | nil => simp [List.lookup_cons]
  | cons kv rest ih =>
    obtain ⟨k', v'⟩ := kv
    have hk : (k == k') = false := by
      cases hkk : (k == k')
      · rfl
      · simp [List.lookup_cons, hkk] at h
    simp only [List.lookup_cons, hk] at h
    simp only [List.cons_append, List.lookup_cons, hk]
    exact ih h

theorem lookup_append_other (o : JSObject) (k k' : String) (v : JSVal)
    (h : k' ≠ k) : (o ++ [(k, v)]).lookup k' = o.lookup k' := by
  have hk : (k' == k) = false := by simpa using h
  induction o with
  | nil => simp [List.lookup_cons, hk]
  | cons kv rest ih =>
    obtain ⟨k₀, v₀⟩ := kv
    simp only [List.cons_append, List.lookup_cons]
    cases (k' == k₀)
    · exact ih
    · rfl

theorem lookup_setProperty_self (o : JSObject) (k : String) (v : JSVal)
    (h : k ≠ "__proto__") : (setProperty o k v).lookup k = some v := by
  unfold setProperty
  rw [if_neg h]
  split
  · next hs => exact lookup_replaceProperty_self o k v hs
  · next hs =>
    have hn : o.lookup k = none := by
      cases hl : o.lookup k
      · rfl
      · simp [hl] at hs
    split
    · exact lookup_insertIndex_self o _ k v hn
    · exact lookup_append_self o k v hn

theorem lookup_setProperty_other (o : JSObject) (k k' : String) (v : JSVal)
    (h : k' ≠ k) : (setProperty o k v).lookup k' = o.lookup k' := by
  unfold setProperty
  split
  · rfl
  · split
    · exact lookup_replaceProperty_other o k k' v h
    · split
      · exact lookup_insertIndex_other o _ k k' v h
      · exact lookup_append_other o k k' v h

theorem collectLoop_append (B : Browser) (form : Form) (pre post : List Field)
    (values : JSObject) :
    collectLoop B form (pre ++ post) values
      = (collectLoop B form pre values).bind (collectLoop B form post) := by
  induction pre generalizing values with
  | nil => rfl
  | cons f fs ih =>
    simp only [List.cons_append, collectLoop]
    split
    · rfl
    · exact ih values
    · exact ih _

theorem collectLoop_lookup_other (B : Browser) (form : Form) (post : List Field) (k : String)
    (hk : ∀ g ∈ post, g.name ≠ k)
    (hq : ∀ g ∈ post, ∃ r, form.querySelector (nameSelector g.name) = .ok r)
    (values : JSObject) :
    ∃ final, collectLoop B form post values = .ok final ∧ final.lookup k = values.lookup k := by
  induction post generalizing values with
  | nil => exact ⟨values, rfl, rfl⟩
  | cons g gs ih =>
    have hk' : ∀ g ∈ gs, g.name ≠ k := fun x hx => hk x (List.mem_cons_of_mem _ hx)
    have hq' : ∀ g ∈ gs, ∃ r, form.querySelector (nameSelector g.name) = .ok r :=
      fun x hx => hq x (List.mem_cons_of_mem _ hx)
    obtain ⟨r, hr⟩ := hq g (List.mem_cons_self _ _)
    unfold collectLoop
    rw [hr]
    cases r with
    | none => exact ih hk' hq' values
    | some ctl =>
      obtain ⟨final, hf, hl⟩ := ih hk' hq' (setProperty values g.name (fieldValue B ctl g))
      refine ⟨final, hf, ?_⟩
      rw [hl]
      exact lookup_setProperty_other _ _ _ _ (fun e => hk g (List.mem_cons_self _ _) e.symm)

/-- C2 (counterexample): the control of a field named `__proto__` is found, and nothing is
stored under that name, the mapping returned is empty; and of two fields named `a`, a
checkbox and a text input, both found, the mapping returned holds the string `on` under `a`,
not the checked state of the checkbox field. -/
theorem C2_proto_field_not_stored :
    protoForm.querySelector (nameSelector "__proto__") = .ok (some ⟨.bool false, .str "x"⟩) ∧
    collectValues sampleBrowser protoForm [{ name := "__proto__", type := some "text" }]
      = .ok [] ∧
    collectAfterRender sampleBrowser sharedNameConfig = [.ok [("a", .str "on")]] := by
  exact ⟨rfl, rfl, rfl⟩

/-- C2 (amended): for a field whose control is found and whose name is not `__proto__`,
`collectValues` stores under the field's name the control's checked state when the type is
`checkbox`, the numeric parse of the control's string value when the type is `number` or
`range` (0 for an empty, undefined or null value), and for every other type the raw string
value (the empty string for null or undefined); the entry is in the mapping returned unless
a later field has the same name. -/
theorem C2_collectValues_stores (B : Browser) (form : Form) (pre post : List Field) (f : Field)
    (values : JSObject) (ctl : Control)
    (hpre : collectValues B form pre = .ok values)
    (hctl : form.querySelector (nameSelector f.name) = .ok (some ctl))
    (hname : f.name ≠ "__proto__") :
    ∃ v, collectValues B form (pre ++ [f]) = .ok (setProperty values f.name v) ∧
      (setProperty values f.name v).lookup f.name = some v ∧
      (f.type = some "checkbox" → v = ctl.checked) ∧
      (f.type = some "number" ∨ f.type = some "range" →
        (∀ s, ctl.value = .str s → s ≠ "" → v = .num (B.stringToNumber s)) ∧
        (ctl.value = .str "" ∨ ctl.value = .undefined ∨ ctl.value = .null →
          v = .num JSNum.zero)) ∧
      (f.type ≠ some "checkbox" → f.type ≠ some "number" → f.type ≠ some "range" →
        (∀ s, ctl.value = .str s → v = .str s) ∧
        (ctl.value = .null ∨ ctl.value = .undefined → v = .str "")) ∧
      ((∀ g ∈ post, g.name ≠ f.name) →
        (∀ g ∈ post, ∃ r, form.querySelector (nameSelector g.name) = .ok r) →
        ∃ final, collectValues B form (pre ++ f :: post) = .ok final ∧
          final.lookup f.name = some v) := by
  have hstep : collectLoop B form [f] values
      = .ok (setProperty values f.name (fieldValue B ctl f)) := by
    simp [collectLoop, hctl]
  refine ⟨fieldValue B ctl f, ?_, lookup_setProperty_self _ _ _ hname, ?_, ?_, ?_, ?_⟩
  · unfold collectValues at hpre ⊢
    rw [collectLoop_append, hpre]
    exact hstep
  · intro ht
    simp [fieldValue, ht]
  · intro ht
    have hnc : f.type ≠ some "checkbox" := by
      rcases ht with h | h <;> simp [h]
    refine ⟨?_, ?_⟩
    · intro s hs hne
      simp [fieldValue, hnc, coerce, ht, hs, JSVal.or, JSVal.truthy, hne, toNumber]
    · intro hv
      rcases hv with h | h | h <;>
        simp [fieldValue, hnc, coerce, ht, h, JSVal.or, JSVal.truthy, toNumber]
  · intro h1 h2 h3
    refine ⟨?_, ?_⟩
    · intro s hs
      simp [fieldValue, h1, coerce, h2, h3, hs, JSVal.nullish]
    · intro hv
      rcases hv with h | h <;> simp [fieldValue, h1, coerce, h2, h3, h, JSVal.nullish]
  · intro hk hq
    obtain ⟨final, hf, hl⟩ := collectLoop_lookup_other B form post f.name hk hq
      (setProperty values f.name (fieldValue B ctl f))
    refine ⟨final, ?_, ?_⟩
    · unfold collectValues at hpre ⊢
      rw [collectLoop_append, hpre]
      simp only [Except.bind, collectLoop, hctl]
      exact hf
    · rw [hl]
      exact lookup_setProperty_self _ _ _ hname

/-- C2 (witness): a number field left empty is collected as `0`. -/
theorem C2_collectValues_stores_witness :
    collectValues sampleBrowser qtyForm [] = .ok [] ∧
    qtyForm.querySelector (nameSelector "qty") = .ok (some ⟨.bool false, .str ""⟩) ∧
    "qty" ≠ "__proto__" ∧
    ∃ v, collectValues sampleBrowser qtyForm ([] ++ [{ name := "qty", type := some "number" }])
        = .ok (setProperty [] "qty" v) ∧ v = .num JSNum.zero := by
  refine ⟨rfl, rfl, by decide, ?_⟩
  obtain ⟨v, h1, _, _, h4, _⟩ := C2_collectValues_stores sampleBrowser qtyForm [] []
    { name := "qty", type := some "number" } [] ⟨.bool false, .str ""⟩ rfl rfl (by decide)
  exact ⟨v, h1, (h4 (Or.inl rfl)).2 (Or.inl rfl)⟩

/-! ## The total (lines 83-98) -/

theorem isFiniteNumber_toNumber (B : Browser) (r : JSVal) (h : isFiniteNumber r = true) :
    JSVal.num (toNumber B r) = r := by
  cases r <;> simp_all [isFiniteNumber, toNumber]

theorem tryComputeTotal_of_selected (B : Browser) (cfg : FormConfig) (values : JSObject)
    (e : String) (h : selectedExpr cfg = some e) :
    tryComputeTotal B cfg values =
      match (B.runFunction (functionBody e) values).outcome with
      | .ok result => (result, [Event.newFunction (functionBody e)])
      | .error err => (.null, [Event.newFunction (functionBody e), Event.consoleWarn err]) := by
  simp only [tryComputeTotal, h]
  cases hr : (B.runFunction (functionBody e) values).outcome with
  | error err => rfl
  | ok result =>
    by_cases hf : isFiniteNumber result = true
    · simp [hf, isFiniteNumber_toNumber]
    · simp [hf]

theorem compiledBodies_of_selected (B : Browser) (cfg : FormConfig) (values : JSObject)
    (e : String) (h : selectedExpr cfg = some e) :
    compiledBodies (tryComputeTotal B cfg values).2 = [functionBody e] := by
  rw [tryComputeTotal_of_selected B cfg values e h]
  cases (B.runFunction (functionBody e) values).outcome <;> simp [compiledBodies]

/-- C3 (counterexample): with `totalExpression: ""` present and `formula: "1"`, the function
compiled and run is the one of `formula`, and the total is `1`. -/
theorem C3_empty_totalExpression_uses_formula :
    tryComputeTotal sampleBrowser { totalExpression := some "", formula := some "1" } []
      = (.num JSNum.one, [Event.newFunction "return (1);"]) := by
  decide

/-- C3 (amended): `tryComputeTotal` evaluates `totalExpression` when it is present and not the
empty string; it evaluates `formula` when `totalExpression` is absent or empty and `formula`
is present and not empty; in both cases exactly one function is compiled, and the value
returned is the value the call returns. When each of the two is absent or empty it returns
null and compiles nothing. It returns in every case. -/
theorem C3_expression_choice (B : Browser) (cfg : FormConfig) (values : JSObject) :
    (∀ e, cfg.totalExpression = some e → e ≠ "" →
      compiledBodies (tryComputeTotal B cfg values).2 = [functionBody e] ∧
      ∀ r, (B.runFunction (functionBody e) values).outcome = .ok r →
        (tryComputeTotal B cfg values).1 = r) ∧
    (∀ e, cfg.totalExpression = none ∨ cfg.totalExpression = some "" →
      cfg.formula = some e → e ≠ "" →
      compiledBodies (tryComputeTotal B cfg values).2 = [functionBody e] ∧
      ∀ r, (B.runFunction (functionBody e) values).outcome = .ok r →
        (tryComputeTotal B cfg values).1 = r) ∧
    (cfg.totalExpression = none ∨ cfg.totalExpression = some "" →
      cfg.formula = none ∨ cfg.formula = some "" →
      tryComputeTotal B cfg values = (.null, [])) := by
  refine ⟨?_, ?_, ?_⟩
  · intro e he hne
    have hs : selectedExpr cfg = some e := by simp [selectedExpr, he, truthyStr, hne]
    refine ⟨compiledBodies_of_selected B cfg values e hs, fun r hr => ?_⟩
    rw [tryComputeTotal_of_selected B cfg values e hs, hr]
  · intro e ht he hne
    have hs : selectedExpr cfg = some e := by
      rcases ht with h | h <;> simp [selectedExpr, h, he, truthyStr, hne]
    refine ⟨compiledBodies_of_selected B cfg values e hs, fun r hr => ?_⟩
    rw [tryComputeTotal_of_selected B cfg values e hs, hr]
  · intro ht hf
    have hs : selectedExpr cfg = none := by
      rcases ht with h | h <;> rcases hf with h' | h' <;> simp [selectedExpr, h, h', truthyStr]
    simp [tryComputeTotal, hs]

/-- C3 (witness): with both keys present and non-empty, the function of `totalExpression` is
the one compiled, and its value is returned. -/
theorem C3_expression_choice_witness :
    compiledBodies (tryComputeTotal sampleBrowser
        { totalExpression := some "2", formula := some "1" } []).2 = ["return (2);"] ∧
    (tryComputeTotal sampleBrowser { totalExpression := some "2", formula := some "1" } []).1
      = .num JSNum.two := by
  have h := (C3_expression_choice sampleBrowser
    { totalExpression := some "2", formula := some "1" } []).1 "2" rfl (by decide)
  exact ⟨h.1, h.2 _ rfl⟩

theorem startsWith_iff (s p : String) :
    startsWith s p = true ↔ ∃ rest, s = p ++ rest := by
  unfold startsWith
  rw [List.isPrefixOf_iff_prefix]
  constructor
  · rintro ⟨t, ht⟩
    refine ⟨⟨t⟩, ?_⟩
    apply String.ext
    simp [String.data_append, ht]
  · rintro ⟨rest, hr⟩
    exact ⟨rest.data, by rw [hr, String.data_append]⟩

/-- C4 (counterexample): the expression `returnRate * values.hours` begins with the name
`returnRate`, not with the word `return`, and the body compiled is the expression itself,
not the expression wrapped. -/
theorem C4_prefix_is_not_the_word :
    compiledBodies (tryComputeTotal sampleBrowser
        { totalExpression := some "returnRate * values.hours" } []).2
      = ["returnRate * values.hours"] := by
  decide

/-- C4 (amended): for the expression string that `tryComputeTotal` evaluates, the one function
body it compiles is the string itself when the string begins with the six characters
`return`, whatever follows them, and otherwise the string wrapped as `return (` … `);`. -/
theorem C4_function_body (B : Browser) (cfg : FormConfig) (values : JSObject) (e : String)
    (h : selectedExpr cfg = some e) :
    ((∃ rest, e = "return" ++ rest) →
      compiledBodies (tryComputeTotal B cfg values).2 = [e]) ∧
    ((¬ ∃ rest, e = "return" ++ rest) →
      compiledBodies (tryComputeTotal B cfg values).2 = ["return (" ++ e ++ ");"]) := by
  rw [compiledBodies_of_selected B cfg values e h]
  constructor
  · intro hp
    have hs : startsWith e "return" = true := (startsWith_iff e "return").mpr hp
    simp [functionBody, hs]
  · intro hp
    have hs : startsWith e "return" = false := by
      cases hb : startsWith e "return"
      · rfl
      · exact absurd ((startsWith_iff e "return").mp hb) hp
    simp [functionBody, hs]

/-- C4 (witness): `return 1;` is compiled as it is, and `values.a + values.b` is wrapped. -/
theorem C4_function_body_witness :
    (selectedExpr { totalExpression := some "return 1;" } = some "return 1;" ∧
      (∃ rest, "return 1;" = "return" ++ rest) ∧
      compiledBodies (tryComputeTotal sampleBrowser
          { totalExpression := some "return 1;" } []).2 = ["return 1;"]) ∧
    (selectedExpr { totalExpression := some "values.a + values.b" }
        = some "values.a + values.b" ∧
      (¬ ∃ rest, "values.a + values.b" = "return" ++ rest) ∧
      compiledBodies (tryComputeTotal sampleBrowser
          { totalExpression := some "values.a + values.b" } []).2
        = ["return (values.a + values.b);"]) := by
  have h1 : ∃ rest, "return 1;" = "return" ++ rest := ⟨" 1;", by decide⟩
  have h2 : ¬ ∃ rest, "values.a + values.b" = "return" ++ rest := by
    intro hp
    have hs := (startsWith_iff "values.a + values.b" "return").mpr hp
    exact absurd hs (by decide)
  exact ⟨⟨by decide, h1, (C4_function_body sampleBrowser { totalExpression := some "return 1;" }
      [] "return 1;" (by decide)).1 h1⟩,
    ⟨by decide, h2, (C4_function_body sampleBrowser
      { totalExpression := some "values.a + values.b" } [] "values.a + values.b"
      (by decide)).2 h2⟩⟩

theorem valuesAfterTotal_of_selected (B : Browser) (cfg : FormConfig) (values : JSObject)
    (e : String) (h : selectedExpr cfg = some e) :
    valuesAfterTotal B cfg values = (B.runFunction (functionBody e) values).values := by
  simp only [valuesAfterTotal, h]

theorem onSubmit_null_total (B : Browser) (l : SubmitListener) (form : Form) (p : Page)
    (values : JSObject) (hvalues : collectValues B form l.fields = .ok values)
    (htotal : (tryComputeTotal B l.cfg values).1 = .null ∨
      (tryComputeTotal B l.cfg values).1 = .undefined) :
    (onSubmit B l form p).1.resultHidden = false ∧
    (∀ text, jsonStringify B (valuesAfterTotal B l.cfg values) = .ok text →
      (onSubmit B l form p).2 = none ∧
      (onSubmit B l form p).1.resultChildren = [dumpNode text]) ∧
    (∀ e, jsonStringify B (valuesAfterTotal B l.cfg values) = .error e →
      (onSubmit B l form p).2 = some e ∧
      (onSubmit B l form p).1.resultChildren = []) := by
  have hn : ¬ ((tryComputeTotal B l.cfg values).1 ≠ .null ∧
      (tryComputeTotal B l.cfg values).1 ≠ .undefined) := by
    rintro ⟨h1, h2⟩
    rcases htotal with h | h
    · exact h1 h
    · exact h2 h
  refine ⟨?_, ?_, ?_⟩
  · unfold onSubmit
    simp only [hvalues]
    rw [if_neg hn]
    cases jsonStringify B (valuesAfterTotal B l.cfg values) <;> rfl
  · intro text ht
    unfold onSubmit
    simp only [hvalues]
    rw [if_neg hn]
    simp only [ht]
    constructor <;> first | rfl | trivial
  · intro e he
    unfold onSubmit
    simp only [hvalues]
    rw [if_neg hn]
    simp only [he]
    constructor <;> first | rfl | trivial

theorem onSubmit_some_total (B : Browser) (l : SubmitListener) (form : Form) (p : Page)
    (values : JSObject) (hvalues : collectValues B form l.fields = .ok values)
    (h1 : (tryComputeTotal B l.cfg values).1 ≠ .null)
    (h2 : (tryComputeTotal B l.cfg values).1 ≠ .undefined) :
    (onSubmit B l form p).1.resultHidden = false ∧
    (∀ e, formatTotal B l.cfg (tryComputeTotal B l.cfg values).1 = .error e →
      (onSubmit B l form p).2 = some e ∧
      (onSubmit B l form p).1.resultChildren = []) ∧
    (∀ s, formatTotal B l.cfg (tryComputeTotal B l.cfg values).1 = .ok s →
      (∀ text, jsonStringify B (valuesAfterTotal B l.cfg values) = .ok text →
        (onSubmit B l form p).2 = none ∧
        (onSubmit B l form p).1.resultChildren = [totalNode s, dumpNode text]) ∧
      (∀ e, jsonStringify B (valuesAfterTotal B l.cfg values) = .error e →
        (onSubmit B l form p).2 = some e ∧
        (onSubmit B l form p).1.resultChildren = [totalNode s])) := by
  have hy : (tryComputeTotal B l.cfg values).1 ≠ .null ∧
      (tryComputeTotal B l.cfg values).1 ≠ .undefined := ⟨h1, h2⟩
  refine ⟨?_, ?_, ?_⟩
  · unfold onSubmit
    simp only [hvalues]
    rw [if_pos hy]
    cases formatTotal B l.cfg (tryComputeTotal B l.cfg values).1 with
    | error e => rfl
    | ok s => cases jsonStringify B (valuesAfterTotal B l.cfg values) <;> rfl
  · intro e he
    unfold onSubmit
    simp only [hvalues]
    rw [if_pos hy]
    simp only [he]
    constructor <;> first | rfl | trivial
  · intro s hs
    refine ⟨?_, ?_⟩
    · intro text ht
      unfold onSubmit
      simp only [hvalues]
      rw [if_pos hy]
      simp only [hs, ht]
      constructor <;> first | rfl | trivial
    · intro e he
      unfold onSubmit
      simp only [hvalues]
      rw [if_pos hy]
      simp only [hs, he]
      constructor <;> first | rfl | trivial

/-- C5 (counterexample): the expression `(values.self = values, nosuch.x)` stores the
collected-values object in itself and then raises; `tryComputeTotal` returns null, but
`JSON.stringify` raises a `TypeError` on the cycle, so the listener ends with that exception
and the result area is left empty, without a dump. -/
theorem C5_cycle_stops_the_listener :
    collectValues sampleBrowser emptyForm [] = .ok [] ∧
    (tryComputeTotal sampleBrowser cycleConfig []).1 = .null ∧
    valuesAfterTotal sampleBrowser cycleConfig [] = [("self", .obj 0)] ∧
    (onSubmit sampleBrowser ⟨cycleConfig, []⟩ emptyForm {}).2 = some ⟨"TypeError"⟩ ∧
    (onSubmit sampleBrowser ⟨cycleConfig, []⟩ emptyForm {}).1.resultChildren = [] := by
  exact ⟨rfl, rfl, rfl, rfl, rfl⟩

/-- C5 (amended): when compiling or running the configured expression raises an exception,
`tryComputeTotal` returns null (and writes the warning) and the result area is made visible;
when, besides, the call left the collected-values object as `collectValues` returned it and
`JSON.stringify` returns its text, the submit listener ends without an exception and the
result area holds the dump of the collected values as its only content, no total line. -/
theorem C5_exception_gives_no_total (B : Browser) (l : SubmitListener) (form : Form) (p : Page)
    (values : JSObject) (e : String) (err : JSErr)
    (hvalues : collectValues B form l.fields = .ok values)
    (hexpr : selectedExpr l.cfg = some e)
    (hraise : (B.runFunction (functionBody e) values).outcome = .error err) :
    tryComputeTotal B l.cfg values
      = (.null, [Event.newFunction (functionBody e), Event.consoleWarn err]) ∧
    (onSubmit B l form p).1.resultHidden = false ∧
    ((B.runFunction (functionBody e) values).values = values →
      ∀ text, jsonStringify B values = .ok text →
        (onSubmit B l form p).2 = none ∧
        (onSubmit B l form p).1.resultChildren = [dumpNode text]) := by
  have ht : tryComputeTotal B l.cfg values
      = (.null, [Event.newFunction (functionBody e), Event.consoleWarn err]) := by
    rw [tryComputeTotal_of_selected B l.cfg values e hexpr, hraise]
  have hnull : (tryComputeTotal B l.cfg values).1 = .null ∨
      (tryComputeTotal B l.cfg values).1 = .undefined := Or.inl (by rw [ht])
  have h := onSubmit_null_total B l form p values hvalues hnull
  refine ⟨ht, h.1, ?_⟩
  intro hsame text htext
  refine h.2.1 text ?_
  rw [valuesAfterTotal_of_selected B l.cfg values e hexpr, hsame]
  exact htext

/-- C5 (witness): the expression `1 +`, which does not compile, on a form with one number
input left empty; the dump is the text of the mapping with `qty` at `0`. -/
theorem C5_exception_gives_no_total_witness :
    collectValues sampleBrowser qtyForm [qtyField] = .ok [("qty", .num JSNum.zero)] ∧
    selectedExpr { totalExpression := some "1 +" } = some "1 +" ∧
    (sampleBrowser.runFunction (functionBody "1 +") [("qty", .num JSNum.zero)]).outcome
      = .error ⟨"SyntaxError"⟩ ∧
    (sampleBrowser.runFunction (functionBody "1 +") [("qty", .num JSNum.zero)]).values
      = [("qty", .num JSNum.zero)] ∧
    jsonStringify sampleBrowser [("qty", .num JSNum.zero)]
      = .ok "\x7b\n  \"qty\": 0\n\x7d" ∧
    (onSubmit sampleBrowser ⟨{ totalExpression := some "1 +" }, [qtyField]⟩ qtyForm {}).2
      = none ∧
    (onSubmit sampleBrowser ⟨{ totalExpression := some "1 +" }, [qtyField]⟩ qtyForm
        {}).1.resultChildren
      = [dumpNode "\x7b\n  \"qty\": 0\n\x7d"] := by
  have h := (C5_exception_gives_no_total sampleBrowser
    ⟨{ totalExpression := some "1 +" }, [qtyField]⟩ qtyForm {} [("qty", .num JSNum.zero)]
    "1 +" ⟨"SyntaxError"⟩ rfl (by decide) rfl).2.2 rfl "\x7b\n  \"qty\": 0\n\x7d" rfl
  exact ⟨rfl, by decide, rfl, rfl, rfl, h.1, h.2⟩

/-! ## Rendered controls (lines 24-70) -/

theorem foldl_append_children (g : OptItem → Node) (opts : List OptItem) (tag : String)
    (cls : Option JSVal) (attrs : List (String × JSVal)) (ls : List (String × Closure))
    (props : List (String × JSVal)) (cs : List Node) :
    opts.foldl (fun (inp : Node) o => inp.append (Child.node (g o))) (Node.elem tag cls attrs ls props cs)
      = Node.elem tag cls attrs ls props (cs ++ opts.map g) := by
  induction opts generalizing cs with
  | nil => simp
  | cons o os ih =>
    rw [List.foldl_cons]
    have hstep : (Node.elem tag cls attrs ls props cs).append (Child.node (g o))
        = Node.elem tag cls attrs ls props (cs ++ [g o]) := rfl
    rw [hstep, ih]
    simp

theorem children_setProp (n : Node) (k : String) (v : JSVal) :
    (n.setProp k v).children = n.children := by
  cases n <;> rfl

theorem selectInput_children (f : Field) :
    (selectInput f).children = (fieldOpts f).map optionNode := by
  have hel : ∃ cls attrs ls props,
      el "select" [("id", .str f.name), ("name", .str f.name), ("required", requiredAttr f)] []
        = .elem "select" cls attrs ls props [] := by
    by_cases hr : f.required = some true
    · exact ⟨_, _, _, _, by simp only [requiredAttr, hr]; rfl⟩
    · exact ⟨_, _, _, _, by simp only [requiredAttr, hr]; rfl⟩
  obtain ⟨cls, attrs, ls, props, hel⟩ := hel
  unfold selectInput
  simp only [hel, foldl_append_children]
  split
  · rw [children_setProp]; simp [Node.children]
  · simp [Node.children]

theorem renderField_children_of_select (f : Field) (h : switchKey f = "select") :
    (renderField f).1.children.get? 1 = some (selectInput f) := by
  unfold renderField
  simp only [h, if_true]
  cases truthyStr f.hint <;> rfl

/-- C6: for a field rendered as a `select`, the control is the second child of the row, and
the options appended to it are, in order: for a list of value and label pairs, one option per
pair with that value and that label; for a list of plain strings, one option per string with
the string as value and as label; for a mapping from value to label, one option per entry
with the key as value and the mapped label as label; for missing options, none. The options
`["a","b"]` give the two options (a, a) and (b, b) in that order, and the mapping
`x: "X label"` gives the option with value `x` and label `X label`. -/
theorem C6_select_options (f : Field) (h : switchKey f = "select") :
    (renderField f).1.children.get? 1 = some (selectInput f) ∧
    (∀ ps : List (String × String),
      f.options = some (.array (ps.map fun p => OptItem.pair p.1 (some p.2))) →
      (selectInput f).children = ps.map fun p => optionElement p.1 p.2) ∧
    (∀ ss : List String, f.options = some (.array (ss.map OptItem.str)) →
      (selectInput f).children = ss.map fun s => optionElement s s) ∧
    (∀ m : List (String × String), f.options = some (.object m) →
      (selectInput f).children = m.map fun e => optionElement e.1 e.2) ∧
    (f.options = none → (selectInput f).children = []) ∧
    (f.options = some (.array [.str "a", .str "b"]) →
      (selectInput f).children = [optionElement "a" "a", optionElement "b" "b"]) ∧
    (f.options = some (.object [("x", "X label")]) →
      (selectInput f).children = [optionElement "x" "X label"]) := by
  refine ⟨renderField_children_of_select f h, ?_, ?_, ?_, ?_, ?_, ?_⟩
  · intro ps hp
    rw [selectInput_children, fieldOpts, hp, List.map_map]
    exact List.map_congr_left fun p _ => rfl
  · intro ss hs
    rw [selectInput_children, fieldOpts, hs, List.map_map]
    exact List.map_congr_left fun p _ => rfl
  · intro m hm
    rw [selectInput_children, fieldOpts, hm, List.map_map]
    exact List.map_congr_left fun p _ => rfl
  · intro hn
    rw [selectInput_children, fieldOpts, hn]
    rfl
  · intro ha
    rw [selectInput_children, fieldOpts, ha]
    rfl
  · intro hx
    rw [selectInput_children, fieldOpts, hx]
    rfl

/-- C6 (witness): a field of type `Select` with the options `["a","b"]`. -/
theorem C6_select_options_witness :
    switchKey sizeField = "select" ∧
    (selectInput sizeField).children = [optionElement "a" "a", optionElement "b" "b"] := by
  refine ⟨by decide, ?_⟩
  exact (C6_select_options sizeField (by decide)).2.2.2.2.2.1 rfl

theorem lookup_assocSet_self (a : List (String × JSVal)) (k : String) (v : JSVal) :
    (assocSet a k v).lookup k = some v := by
  induction a with
  | nil => simp [assocSet, List.lookup_cons]
  | cons kv rest ih =>
    obtain ⟨k', v'⟩ := kv
    by_cases hk : k' = k
    · simp [assocSet, hk, List.lookup_cons]
    · have hk2 : (k == k') = false := by simpa using fun e => hk e.symm
      simp only [assocSet, hk, if_false, List.lookup_cons, hk2]
      exact ih

theorem lookup_assocSet_other (a : List (String × JSVal)) (k k' : String) (v : JSVal)
    (h : k' ≠ k) : (assocSet a k v).lookup k' = a.lookup k' := by
  have hk : (k' == k) = false := by simpa using h
  induction a with
  | nil => simp [assocSet, List.lookup_cons, hk]
  | cons kv rest ih =>
    obtain ⟨k₀, v₀⟩ := kv
    by_cases hk0 : k₀ = k
    · subst hk0
      simp [assocSet, List.lookup_cons, hk]
    · simp only [assocSet, hk0, if_false, List.lookup_cons]
      cases (k' == k₀)
      · exact ih
      · rfl

theorem elAttr_plain (k : String) (hc : k ≠ "class") (hon : startsWith k "on" = false)
    (tag : String) (cls : Option JSVal) (a : List (String × JSVal))
    (ls : List (String × Closure)) (props : List (String × JSVal)) (cs : List Node)
    (v : JSVal) :
    elAttr (Node.elem tag cls a ls props cs) (k, v)
      = Node.elem tag cls (attrsAfter a (k, v)) ls props cs := by
  unfold elAttr attrsAfter
  simp only [hc, if_false, hon]
  cases v <;> simp [Node.setAttribute]

theorem lookup_attrsAfter (a : List (String × JSVal)) (k k' : String) (v : JSVal) :
    (attrsAfter a (k', v)).lookup k
      = if k' = k ∧ v ≠ .undefined ∧ v ≠ .null then some v else a.lookup k := by
  unfold attrsAfter
  by_cases hv : v = .undefined ∨ v = .null
  · have : ¬ (k' = k ∧ v ≠ .undefined ∧ v ≠ .null) := by
      rintro ⟨_, h1, h2⟩
      rcases hv with h | h
      · exact h1 h
      · exact h2 h
    simp only [hv, if_true, this, if_false]
  · have hv' : v ≠ .undefined ∧ v ≠ .null := by
      constructor <;> intro h <;> exact hv (by simp [h])
    by_cases hk : k' = k
    · subst hk
      simp [hv, hv', lookup_assocSet_self]
    · simp only [hv, if_false, hk, false_and]
      exact lookup_assocSet_other a k' k v (fun e => hk e.symm)

theorem textInput_eq (f : Field) :
    textInput f =
      if f.default ≠ .undefined
      then Node.elem "input" none (List.foldl attrsAfter []
        [("id", .str f.name), ("name", .str f.name), ("type", optStr f.type),
         ("required", requiredAttr f), ("min", optNum f.min), ("max", optNum f.max),
         ("step", optNum f.step), ("placeholder", optStr f.placeholder)])
        [] [("value", f.default)] []
      else Node.elem "input" none (List.foldl attrsAfter []
        [("id", .str f.name), ("name", .str f.name), ("type", optStr f.type),
         ("required", requiredAttr f), ("min", optNum f.min), ("max", optNum f.max),
         ("step", optNum f.step), ("placeholder", optStr f.placeholder)])
        [] [] [] := by
  unfold textInput el createElement
  simp only [List.foldl,
    elAttr_plain "id" (by decide) (by decide),
    elAttr_plain "name" (by decide) (by decide),
    elAttr_plain "type" (by decide) (by decide),
    elAttr_plain "required" (by decide) (by decide),
    elAttr_plain "min" (by decide) (by decide),
    elAttr_plain "max" (by decide) (by decide),
    elAttr_plain "step" (by decide) (by decide),
    elAttr_plain "placeholder" (by decide) (by decide)]
  rfl

theorem textInput_facts (f : Field) :
    (textInput f).tag = "input" ∧
    (textInput f).getAttribute "type" = f.type.map JSVal.str ∧
    (textInput f).getAttribute "min" = f.min.map JSVal.num ∧
    (textInput f).getAttribute "max" = f.max.map JSVal.num ∧
    (textInput f).getAttribute "step" = f.step.map JSVal.num ∧
    (textInput f).getAttribute "placeholder" = f.placeholder.map JSVal.str ∧
    (textInput f).getAttribute "required"
      = (if f.required = some true then some (JSVal.bool true) else none) ∧
    (textInput f).getProp "value"
      = (if f.default = JSVal.undefined then none else some f.default) := by
  rw [textInput_eq]
  by_cases hd : f.default = JSVal.undefined
  · simp only [hd, ne_eq, not_true_eq_false, if_false, if_true, Node.tag, Node.getAttribute,
      Node.attrs, Node.getProp, Node.props, List.foldl, lookup_attrsAfter]
    refine ⟨trivial, ?_, ?_, ?_, ?_, ?_, ?_, ?_⟩
    · cases f.type <;> simp [optStr, List.lookup]
    · cases f.min <;> simp [optNum, List.lookup]
    · cases f.max <;> simp [optNum, List.lookup]
    · cases f.step <;> simp [optNum, List.lookup]
    · cases f.placeholder <;> simp [optStr, List.lookup]
    · by_cases hr : f.required = some true <;> simp [requiredAttr, hr, List.lookup]
    · simp [List.lookup]
  · simp only [hd, ne_eq, not_false_eq_true, if_false, if_true, Node.tag, Node.getAttribute,
      Node.attrs, Node.getProp, Node.props, List.foldl, lookup_attrsAfter]
    refine ⟨trivial, ?_, ?_, ?_, ?_, ?_, ?_, ?_⟩
    · cases f.type <;> simp [optStr, List.lookup]
    · cases f.min <;> simp [optNum, List.lookup]
    · cases f.max <;> simp [optNum, List.lookup]
    · cases f.step <;> simp [optNum, List.lookup]
    · cases f.placeholder <;> simp [optStr, List.lookup]
    · by_cases hr : f.required = some true <;> simp [requiredAttr, hr, List.lookup]
    · simp [List.lookup]

theorem renderField_children_of_text (f : Field)
    (h : switchKey f = "number" ∨ switchKey f = "text") :
    (renderField f).1.children.get? 1 = some (textInput f) := by
  have hs : switchKey f ≠ "select" := by
    rcases h with h | h <;> rw [h] <;> decide
  unfold renderField
  simp only [hs, h, if_true, if_false]
  cases truthyStr f.hint <;> rfl

theorem renderField_children_of_other (f : Field)
    (h1 : switchKey f ≠ "select") (h2 : switchKey f ≠ "number") (h3 : switchKey f ≠ "text")
    (h4 : switchKey f ≠ "range") (h5 : switchKey f ≠ "checkbox") :
    (renderField f).1.children.get? 1 = some (fallbackInput f) := by
  unfold renderField
  simp only [h1, h2, h3, h4, h5, or_self, if_false]
  cases truthyStr f.hint <;> rfl

/-- C7 (counterexample): a field of type `email` with a placeholder, a default and the
required flag is rendered as a text input that carries none of them. -/
theorem C7_unlisted_type_drops_attributes :
    switchKey emailField = "email" ∧
    emailField.placeholder = some "you@example.org" ∧
    (renderField emailField).1.children.get? 1
      = some (Node.elem "input" none
          [("id", .str "email"), ("name", .str "email"), ("type", .str "text")] [] [] []) := by
  exact ⟨by decide, rfl, rfl⟩

/-- C7 (amended): a field whose type is `number` or `text` or absent is handled by the case
`number`/`text` of `renderField` (so is a type that lower-cases to one of the two, and the
empty string). In that case the control is the second child of the row and is an `input`
whose `type` attribute is the declared type (not set when the type is absent), whose `min`,
`max`, `step` and `placeholder` attributes are set exactly when the field provides them, to
the values provided, whose `required` attribute is set exactly when the field is required,
and whose value is assigned exactly when a default is present, to that default. A field of
any type the `switch` does not list gets an `input` with the attributes `id`, `name` and
`type="text"` only, and no value assigned. -/
theorem C7_text_inputs (f : Field) :
    (f.type = none ∨ f.type = some "text" ∨ f.type = some "number" →
      switchKey f = "number" ∨ switchKey f = "text") ∧
    (switchKey f = "number" ∨ switchKey f = "text" →
      (renderField f).1.children.get? 1 = some (textInput f) ∧
      (textInput f).tag = "input" ∧
      (textInput f).getAttribute "type" = f.type.map JSVal.str ∧
      (textInput f).getAttribute "min" = f.min.map JSVal.num ∧
      (textInput f).getAttribute "max" = f.max.map JSVal.num ∧
      (textInput f).getAttribute "step" = f.step.map JSVal.num ∧
      (textInput f).getAttribute "placeholder" = f.placeholder.map JSVal.str ∧
      (textInput f).getAttribute "required"
        = (if f.required = some true then some (JSVal.bool true) else none) ∧
      (textInput f).getProp "value"
        = (if f.default = JSVal.undefined then none else some f.default)) ∧
    (switchKey f ≠ "select" → switchKey f ≠ "number" → switchKey f ≠ "text" →
      switchKey f ≠ "range" → switchKey f ≠ "checkbox" →
      (renderField f).1.children.get? 1 = some (fallbackInput f) ∧
      fallbackInput f = Node.elem "input" none
        [("id", .str f.name), ("name", .str f.name), ("type", .str "text")] [] [] []) := by
  refine ⟨?_, ?_, ?_⟩
  · intro h
    rcases h with h | h | h
    · right; simp only [switchKey, h, truthyStr]; decide
    · right; simp only [switchKey, h, truthyStr]; decide
    · left; simp only [switchKey, h, truthyStr]; decide
  · intro h
    exact ⟨renderField_children_of_text f h, textInput_facts f⟩
  · intro h1 h2 h3 h4 h5
    exact ⟨renderField_children_of_other f h1 h2 h3 h4 h5, rfl⟩

/-- C7 (witness): a number field with a minimum, a placeholder and a default. -/
theorem C7_text_inputs_witness :
    switchKey hoursField = "number" ∧
    (textInput hoursField).getAttribute "min" = some (.num JSNum.zero) ∧
    (textInput hoursField).getAttribute "max" = none ∧
    (textInput hoursField).getProp "value" = some (.num JSNum.one) := by
  have h := (C7_text_inputs hoursField).2.1 (Or.inl (by decide))
  exact ⟨by decide, h.2.2.2.1, h.2.2.2.2.1, h.2.2.2.2.2.2.2.2⟩

/-! ## The submit listener (lines 119-130) -/

/-- C8 (counterexample): with the expression `1` and the currency code `EURO`, the total is
`1`, the formatter raises a `RangeError`, and the result area is left visible and empty: no
dump is rendered. And with the expression `values.x = 1` on a form without controls,
`collectValues` returns the empty mapping while the dump shows `x` at `1`. -/
theorem C8_bad_currency_no_dump :
    (tryComputeTotal sampleBrowser euroConfig []).1 = .num JSNum.one ∧
    (onSubmit sampleBrowser ⟨euroConfig, []⟩ emptyForm {}).1.resultChildren = [] ∧
    (onSubmit sampleBrowser ⟨euroConfig, []⟩ emptyForm {}).1.resultHidden = false ∧
    (onSubmit sampleBrowser ⟨euroConfig, []⟩ emptyForm {}).2 = some ⟨"RangeError"⟩ ∧
    collectValues sampleBrowser emptyForm [] = .ok [] ∧
    (onSubmit sampleBrowser ⟨assignConfig, []⟩ emptyForm {}).1.resultChildren
      = [totalNode "$1.00", dumpNode "\x7b\n  \"x\": 1\n\x7d"] := by
  exact ⟨rfl, rfl, rfl, rfl, rfl, rfl⟩

/-- C8 (amended): on a submit in which `collectValues` returns, the result area is made
visible and its prior content is discarded. When the total is neither null nor undefined and
the currency formatter raises, the area is left empty. Otherwise, when evaluating the
expression left the collected-values object as `collectValues` returned it and
`JSON.stringify` returns its text, the area holds the `Total: ` line exactly when the total
is neither null nor undefined, followed by one dump with the text of exactly that mapping. -/
theorem C8_result_area (B : Browser) (l : SubmitListener) (form : Form) (p : Page)
    (values : JSObject) (hvalues : collectValues B form l.fields = .ok values) :
    (onSubmit B l form p).1.resultHidden = false ∧
    ((tryComputeTotal B l.cfg values).1 ≠ .null →
      (tryComputeTotal B l.cfg values).1 ≠ .undefined →
      ∀ e, formatTotal B l.cfg (tryComputeTotal B l.cfg values).1 = .error e →
        (onSubmit B l form p).1.resultChildren = [] ∧
        (onSubmit B l form p).2 = some e) ∧
    (valuesAfterTotal B l.cfg values = values →
      ∀ text, jsonStringify B values = .ok text →
        ((tryComputeTotal B l.cfg values).1 = .null ∨
            (tryComputeTotal B l.cfg values).1 = .undefined →
          (onSubmit B l form p).1.resultChildren = [dumpNode text] ∧
          (onSubmit B l form p).2 = none) ∧
        ((tryComputeTotal B l.cfg values).1 ≠ .null →
          (tryComputeTotal B l.cfg values).1 ≠ .undefined →
          ∀ s, formatTotal B l.cfg (tryComputeTotal B l.cfg values).1 = .ok s →
            (onSubmit B l form p).1.resultChildren = [totalNode s, dumpNode text] ∧
            (onSubmit B l form p).2 = none)) := by
  refine ⟨?_, ?_, ?_⟩
  · by_cases hn : (tryComputeTotal B l.cfg values).1 = .null ∨
        (tryComputeTotal B l.cfg values).1 = .undefined
    · exact (onSubmit_null_total B l form p values hvalues hn).1
    · exact (onSubmit_some_total B l form p values hvalues (fun h => hn (Or.inl h))
        (fun h => hn (Or.inr h))).1
  · intro h1 h2 e he
    exact ((onSubmit_some_total B l form p values hvalues h1 h2).2.1 e he).symm
  · intro hsame text htext
    have htext' : jsonStringify B (valuesAfterTotal B l.cfg values) = .ok text := by
      rw [hsame]; exact htext
    refine ⟨?_, ?_⟩
    · intro hn
      exact ((onSubmit_null_total B l form p values hvalues hn).2.1 text htext').symm
    · intro h1 h2 s hs
      exact (((onSubmit_some_total B l form p values hvalues h1 h2).2.2 s hs).1 text
        htext').symm

/-- C8 (witness): a submit with the expression `1` and the default currency on a form with
one number input left empty: the result area holds the line `Total: $1.00` and the dump of
the mapping with `qty` at `0`. -/
theorem C8_result_area_witness :
    collectValues sampleBrowser qtyForm [qtyField] = .ok [("qty", .num JSNum.zero)] ∧
    valuesAfterTotal sampleBrowser { totalExpression := some "1" } [("qty", .num JSNum.zero)]
      = [("qty", .num JSNum.zero)] ∧
    jsonStringify sampleBrowser [("qty", .num JSNum.zero)]
      = .ok "\x7b\n  \"qty\": 0\n\x7d" ∧
    formatTotal sampleBrowser { totalExpression := some "1" } (.num JSNum.one)
      = .ok "$1.00" ∧
    (onSubmit sampleBrowser ⟨{ totalExpression := some "1" }, [qtyField]⟩ qtyForm
        {}).1.resultChildren
      = [totalNode "$1.00", dumpNode "\x7b\n  \"qty\": 0\n\x7d"] ∧
    (onSubmit sampleBrowser ⟨{ totalExpression := some "1" }, [qtyField]⟩ qtyForm {}).2
      = none := by
  have h := ((C8_result_area sampleBrowser ⟨{ totalExpression := some "1" }, [qtyField]⟩
    qtyForm {} [("qty", .num JSNum.zero)] rfl).2.2 rfl "\x7b\n  \"qty\": 0\n\x7d" rfl).2
    (by decide) (by decide) "$1.00" rfl
  exact ⟨rfl, rfl, rfl, rfl, h.1, h.2⟩

/-- C9 (evaluation at the failing input): a field of type `Checkbox` is rendered as a checkbox
input, and collecting values right after rendering gives the string `on` under its name,
with no default and with `default: true` alike; with the type written `checkbox` the same
two fields give `false` and `true`. -/
theorem C9_capitalised_checkbox_collects_on :
    namedList (render sampleBrowser agreeConfig {}).formChildren
      = [Node.elem "input" none
          [("id", .str "agree"), ("name", .str "agree"), ("type", .str "checkbox")] [] [] []] ∧
    collectAfterRender sampleBrowser agreeConfig = [.ok [("agree", .str "on")]] ∧
    collectAfterRender sampleBrowser agreeCheckedConfig = [.ok [("agree", .str "on")]] ∧
    collectAfterRender sampleBrowser agreeLowerConfig = [.ok [("agree", .bool false)]] ∧
    collectAfterRender sampleBrowser agreeLowerCheckedConfig
      = [.ok [("agree", .bool true)]] := by
  exact ⟨rfl, rfl, rfl, rfl, rfl⟩

/-! ## Repeated `render` (lines 100-131) -/

theorem onSubmit_trace (B : Browser) (l : SubmitListener) (form : Form) (p : Page) :
    (onSubmit B l form p).1.trace = p.trace ++ runTrace B form l := by
  unfold onSubmit runTrace
  cases collectValues B form l.fields with
  | error e => rfl
  | ok values =>
    simp only []
    split
    · split
      · simp
      · split <;> simp
    · split <;> simp

theorem foldl_onSubmit_trace (B : Browser) (form : Form) (ls : List SubmitListener) (p : Page) :
    (ls.foldl (fun q l => (onSubmit B l form q).1) p).trace
      = p.trace ++ ls.flatMap (runTrace B form) := by
  induction ls generalizing p with
  | nil => simp
  | cons l ls ih =>
    rw [List.foldl_cons, ih, onSubmit_trace]
    simp [List.flatMap_cons, List.append_assoc]

theorem count_collect_tryComputeTotal (B : Browser) (cfg : FormConfig) (values : JSObject) :
    (tryComputeTotal B cfg values).2.count Event.collectValues = 0 := by
  unfold tryComputeTotal
  cases selectedExpr cfg with
  | none => rfl
  | some e =>
    simp only []
    cases (B.runFunction (functionBody e) values).outcome <;> simp [List.count_cons]

theorem count_collect_runTrace (B : Browser) (form : Form) (l : SubmitListener) :
    (runTrace B form l).count Event.collectValues = 1 := by
  unfold runTrace
  cases collectValues B form l.fields with
  | error e => rfl
  | ok values =>
    simp [List.count_cons, List.count_append, count_collect_tryComputeTotal]

theorem count_collect_flatMap (B : Browser) (form : Form) (ls : List SubmitListener) :
    (ls.flatMap (runTrace B form)).count Event.collectValues = ls.length := by
  induction ls with
  | nil => rfl
  | cons l ls ih =>
    simp [List.flatMap_cons, List.count_append, count_collect_runTrace, ih]
    omega

theorem appendFields_fst (fields : List Field) (ns : List Node) (ts : List Timer) :
    (appendFields fields (ns, ts)).1 = ns ++ fields.map fun f => (renderField f).1 := by
  unfold appendFields
  induction fields generalizing ns ts with
  | nil => simp
  | cons f fs ih =>
    rw [List.foldl_cons, ih]
    simp

theorem renderAll_snoc (B : Browser) (cfgs : List FormConfig) (cfg : FormConfig) (p : Page) :
    renderAll B (cfgs ++ [cfg]) p = render B cfg (renderAll B cfgs p) := by
  simp [renderAll, List.foldl_append]

theorem renderAll_formListeners_length (B : Browser) (cfgs : List FormConfig) (p : Page) :
    (renderAll B cfgs p).formListeners.length = p.formListeners.length + cfgs.length := by
  induction cfgs using List.reverseRecOn with
  | nil => rfl
  | append_singleton cs c ih =>
    rw [renderAll_snoc]
    simp [render, ih, Nat.add_assoc]

/-- C10 (counterexample): after two `render` calls on a fresh page the form carries two
submit listeners, and one submit event runs the pipeline twice. -/
theorem C10_two_renders_two_runs :
    (renderAll sampleBrowser [{}, {}] {}).formListeners.length = 2 ∧
    (dispatchSubmit sampleBrowser emptyForm (renderAll sampleBrowser [{}, {}] {})).trace
      = [Event.collectValues, Event.tryComputeTotal, Event.present,
         Event.collectValues, Event.tryComputeTotal, Event.present] := by
  exact ⟨rfl, rfl⟩

/-- C10 (amended): after `n ≥ 1` `render` calls on a page that had no submit listener, the
form contains exactly the rows of the latest configuration's fields in declaration order
followed by one submit button, and it carries `n` submit listeners. One submit event runs the
pipeline once for each of them, `n` times in all and exactly once when `n = 1`; each run
collects, then evaluates, then presents, and a run whose collecting raises stops there. -/
theorem C10_render_sequence (B : Browser) (cfgs : List FormConfig) (cfg : FormConfig)
    (p : Page) (form : Form) (hp : p.formListeners = []) :
    (renderAll B (cfgs ++ [cfg]) p).formChildren
      = ((normalizeFields B (cfg.fields.getD []) (renderAll B cfgs p).uuidCalls).1.map
          fun f => (renderField f).1) ++ [submitButton cfg] ∧
    (renderAll B (cfgs ++ [cfg]) p).formListeners.length = cfgs.length + 1 ∧
    (dispatchSubmit B form (renderAll B (cfgs ++ [cfg]) p)).trace
      = (renderAll B (cfgs ++ [cfg]) p).trace
        ++ (renderAll B (cfgs ++ [cfg]) p).formListeners.flatMap (runTrace B form) ∧
    (dispatchSubmit B form (renderAll B (cfgs ++ [cfg]) p)).trace.count Event.collectValues
      = (renderAll B (cfgs ++ [cfg]) p).trace.count Event.collectValues + (cfgs.length + 1) ∧
    (cfgs = [] →
      (dispatchSubmit B form (renderAll B (cfgs ++ [cfg]) p)).trace
        = (renderAll B (cfgs ++ [cfg]) p).trace
          ++ runTrace B form ⟨cfg, (normalizeFields B (cfg.fields.getD []) p.uuidCalls).1⟩) := by
  have hlen : (renderAll B (cfgs ++ [cfg]) p).formListeners.length = cfgs.length + 1 := by
    rw [renderAll_formListeners_length, hp]
    simp
  have htrace := foldl_onSubmit_trace B form (renderAll B (cfgs ++ [cfg]) p).formListeners
    (renderAll B (cfgs ++ [cfg]) p)
  refine ⟨?_, hlen, htrace, ?_, ?_⟩
  · rw [renderAll_snoc]
    simp only [render, appendFields_fst, List.nil_append]
    rfl
  · unfold dispatchSubmit
    rw [htrace, List.count_append, count_collect_flatMap, hlen]
  · intro hc
    subst hc
    unfold dispatchSubmit
    rw [htrace]
    simp [renderAll, render, hp, List.flatMap_cons]

/-- C10 (witness): one `render` of a configuration with one field on a fresh page. -/
theorem C10_render_sequence_witness :
    ({} : Page).formListeners = [] ∧
    (renderAll sampleBrowser ([] ++ [agreeConfig]) {}).formListeners.length = 1 ∧
    (dispatchSubmit sampleBrowser emptyForm
        (renderAll sampleBrowser ([] ++ [agreeConfig]) {})).trace.count Event.collectValues
      = 1 := by
  have h := C10_render_sequence sampleBrowser [] agreeConfig {} emptyForm rfl
  exact ⟨rfl, h.2.1, h.2.2.2.1⟩


end MyForm
